import Mathlib

/-!
distributed-compute-operator: admission webhook and naming provider.

A shallow embedding of

* `api/v1alpha1/raycluster_webhook.go` (defaulting and validation of a `RayCluster`),
* `pkg/cluster/metadata/metadata.go` (instance names and label sets of the `Provider`),
* `pkg/resources/spark/spark.go` (`InstanceObjectName`),
* `pkg/cluster/dask/statefulset.go` (the StatefulSet data source of the dask roles),

followed by theorems about them.

Conventions of the embedding:

* `int32` / `int64` values are `Int`; the code only compares them, it does no arithmetic.
* a Go pointer `*T` is `Option T`, `nil` being `none`;
* a Go slice or map that the code tests against `nil` is an `Option (List _)`;
* a `field.ErrorList` is a `List`, the `nil` list being `[]` (the code never builds an empty
  non-nil list);
* a Go `map[string]string` is the list of its entries, read with `List.lookup`;
* a nil-pointer dereference is the error value of `Except GoPanic`.
-/

set_option autoImplicit false
set_option linter.dupNamespace false

/-! ## The parts of `k8s.io/apimachinery/pkg/util/validation/field` the webhook uses -/

namespace field

/-- Go `field.ErrorType`: the two kinds of error the webhook builds. -/
inductive ErrorType where
  | ErrorTypeInvalid
  | ErrorTypeRequired
  deriving DecidableEq, Repr

/-- The `interface{}` value stored in `field.Error.BadValue`: an `int32`, a pointer to an
integer (shown by the integer it points to) or a string. -/
inductive BadValue where
  | int (v : Int)
  | intPtr (v : Int)
  | str (s : String)
  deriving DecidableEq, Repr

/-- Go `field.Error`. -/
structure Error where
  Type_ : ErrorType
  Field : String
  BadValue : BadValue
  Detail : String
  deriving DecidableEq, Repr

/-- Go `field.Path`, as the list of its element names from the root (the webhook builds no
index or key element). -/
structure Path where
  names : List String
  deriving DecidableEq, Repr

/-- Go `field.NewPath(name)`. -/
def NewPath (name : String) : Path := ⟨[name]⟩

/-- Go `(*Path).Child(name)`. -/
def Path.Child (p : Path) (name : String) : Path := ⟨p.names ++ [name]⟩

/-- Go `(*Path).String()`: the names joined by dots. -/
def Path.String (p : Path) : String := ".".intercalate p.names

/-- Go `field.Invalid(path, value, detail)`. -/
def Invalid (p : Path) (value : BadValue) (detail : String) : Error :=
  { Type_ := .ErrorTypeInvalid, Field := p.String, BadValue := value, Detail := detail }

/-- Go `field.Required(path, detail)`: the bad value is the empty string. -/
def Required (p : Path) (detail : String) : Error :=
  { Type_ := .ErrorTypeRequired, Field := p.String, BadValue := .str "", Detail := detail }

end field

namespace v1alpha1

/-! ## Data model -/

/-- The run-time failure of a Go program that the embedded code can reach. -/
inductive GoPanic where
  | nilPointerDereference
  deriving DecidableEq, Repr

/-- Modelled from the spec: the declaration of Go `OCIImageDefinition` is not among the sources.
The container image reference of the data model (repository and tag), with the fields the
sources read: `Repository`, `Tag` and `PullPolicy`. -/
structure OCIImageDefinition where
  Repository : String
  Tag : String
  PullPolicy : String
  deriving DecidableEq, Repr

/-- Modelled from the spec: the declaration of Go `Autoscaling` is not among the sources. The
autoscaling policy of the data model: max replicas, and min replicas, average-utilization
target and scale-down stabilization window, each of which may be left unspecified (a nil
pointer); the field names are those `validateAutoscaler` reads. -/
structure Autoscaling where
  MinReplicas : Option Int
  MaxReplicas : Int
  AverageCPUUtilization : Option Int
  ScaleDownStabilizationWindowSeconds : Option Int
  deriving DecidableEq, Repr

/-- Go `corev1.ResourceRequirements`; a `ResourceList` is a map from resource name to quantity,
kept here as an association list (a nil map is the empty list: the code only looks keys up). -/
structure ResourceRequirements where
  Limits : List (String × String)
  Requests : List (String × String)
  deriving DecidableEq, Repr

/-- Modelled from the spec: the declaration of Go `RayClusterNetworkPolicy` is not among the
sources. The network-policy toggle and the two label-selector maps (client access, dashboard
access) of the data model, under the field names `Default` assigns. -/
@[ext]
structure RayClusterNetworkPolicy where
  Enabled : Option Bool
  ClientServerLabels : Option (List (String × String))
  DashboardLabels : Option (List (String × String))
  deriving DecidableEq, Repr

/-- Modelled from the spec: the declaration of Go `RayClusterWorker` is not among the sources.
The worker replica count (nullable pending defaulting) and the worker's resource requests and
limits, under the field names the webhook reads and writes. -/
@[ext]
structure RayClusterWorker where
  Replicas : Option Int
  Resources : ResourceRequirements
  deriving DecidableEq, Repr

/-- Modelled from the spec: the declaration of Go `RayClusterSpec` is not among the sources.
The attributes of the cluster spec of the data model, under the field names and Go types with
which `raycluster_webhook.go` reads and writes them. -/
@[ext]
structure RayClusterSpec where
  Image : Option OCIImageDefinition
  Autoscaling : Option Autoscaling
  Port : Int
  RedisShardPorts : Option (List Int)
  ClientServerPort : Int
  ObjectManagerPort : Int
  NodeManagerPort : Int
  GCSServerPort : Int
  WorkerPorts : Option (List Int)
  ObjectStoreMemoryBytes : Option Int
  DashboardPort : Int
  EnableDashboard : Option Bool
  NetworkPolicy : RayClusterNetworkPolicy
  MutualTLSMode : String
  Worker : RayClusterWorker
  deriving DecidableEq, Repr

/-- Modelled from the spec: the declaration of Go `RayCluster` is not among the sources. The
object name (`r.Name`) and the cluster spec (`r.Spec`). -/
@[ext]
structure RayCluster where
  Name : String
  Spec : RayClusterSpec
  deriving DecidableEq, Repr

/-! ## Constants of `raycluster_webhook.go` -/

def rayMinValidPort : Int := 1024
def rayMaxValidPort : Int := 65535

def rayDefaultRedisPort : Int := 6379
def rayDefaultClientServerPort : Int := 10001
def rayDefaultObjectManagerPort : Int := 2384
def rayDefaultNodeManagerPort : Int := 2385
def rayDefaultGCSServerPort : Int := 2386
def rayDefaultDashboardPort : Int := 8265
def rayDefaultRedisShardPorts : Option (List Int) := some [6380, 6381]
def rayDefaultEnableDashboard : Option Bool := some true
def rayDefaultEnableNetworkPolicy : Option Bool := some true
def rayDefaultWorkerReplicas : Option Int := some 1
def rayDefaultNetworkPolicyLabels : Option (List (String × String)) := some [("ray-client", "true")]

def rayDefaultImage : Option OCIImageDefinition :=
  some { Repository := "rayproject/ray", Tag := "1.3.0-cpu", PullPolicy := "" }

/-! ## Defaulting -/

/-- Go `(*RayCluster).Default`: the thirteen guarded assignments, in source order, each reading
the spec as the earlier ones left it. Logging is left out. -/
def RayCluster.Default (r : RayCluster) : RayCluster :=
  let s := r.Spec
  let s := if s.Port = 0 then { s with Port := rayDefaultRedisPort } else s
  let s := if s.RedisShardPorts = none then { s with RedisShardPorts := rayDefaultRedisShardPorts } else s
  let s := if s.ClientServerPort = 0 then { s with ClientServerPort := rayDefaultClientServerPort } else s
  let s := if s.ObjectManagerPort = 0 then { s with ObjectManagerPort := rayDefaultObjectManagerPort } else s
  let s := if s.GCSServerPort = 0 then { s with GCSServerPort := rayDefaultGCSServerPort } else s
  let s := if s.NodeManagerPort = 0 then { s with NodeManagerPort := rayDefaultNodeManagerPort } else s
  let s := if s.DashboardPort = 0 then { s with DashboardPort := rayDefaultDashboardPort } else s
  let s := if s.EnableDashboard = none then { s with EnableDashboard := rayDefaultEnableDashboard } else s
  let s := if s.NetworkPolicy.Enabled = none then
    { s with NetworkPolicy := { s.NetworkPolicy with Enabled := rayDefaultEnableNetworkPolicy } } else s
  let s := if s.NetworkPolicy.ClientServerLabels = none then
    { s with NetworkPolicy := { s.NetworkPolicy with ClientServerLabels := rayDefaultNetworkPolicyLabels } }
    else s
  let s := if s.NetworkPolicy.DashboardLabels = none then
    { s with NetworkPolicy := { s.NetworkPolicy with DashboardLabels := rayDefaultNetworkPolicyLabels } }
    else s
  let s := if s.Worker.Replicas = none then
    { s with Worker := { s.Worker with Replicas := rayDefaultWorkerReplicas } } else s
  let s := if s.Image = none then { s with Image := rayDefaultImage } else s
  { r with Spec := s }

/-! ## Validation -/

/-- Go `GroupVersion.Group` (declared beside the types); the value is the group named by the
webhook markers of `raycluster_webhook.go`. -/
def GroupVersionGroup : String := "distributed-compute.dominodatalab.com"

/-- Go `schema.GroupKind`. -/
structure GroupKind where
  Group : String
  Kind : String
  deriving DecidableEq, Repr

/-- The error built by `apierrors.NewInvalid(qualifiedKind, name, errs)`, kept as the three
arguments it is built from. -/
structure StatusError where
  qualifiedKind : GroupKind
  name : String
  errs : List field.Error
  deriving DecidableEq, Repr

/-- Go `apierrors.NewInvalid`. -/
def NewInvalid (qualifiedKind : GroupKind) (name : String) (errs : List field.Error) : StatusError :=
  { qualifiedKind := qualifiedKind, name := name, errs := errs }

/-- Go `fmt.Sprintf("%v", xs)` for a `[]string`: the elements separated by blanks, in brackets. -/
def sprintStrings (xs : List String) : String := "[" ++ " ".intercalate xs ++ "]"

/-- Go `range` over a slice: index and element, a nil slice having no element. -/
def rangeSlice (xs : Option (List Int)) : List (Nat × Int) := (xs.getD []).enum

/-- Go `(*RayCluster).validateMutualTLSMode`. `modeValue` is the table
`securityv1beta1.PeerAuthentication_MutualTLS_Mode_value` of the istio API, listed in the order
in which the `range` loop visits it. -/
def RayCluster.validateMutualTLSMode (modeValue : List (String × Int)) (r : RayCluster) :
    Option field.Error :=
  if r.Spec.MutualTLSMode = "" then none
  else if (modeValue.lookup r.Spec.MutualTLSMode).isSome then none
  else
    let validModes := modeValue.foldl (fun validModes kv => validModes ++ [kv.1]) []
    some (field.Invalid ((field.NewPath "spec").Child "istioMutualTLSMode")
      (.str r.Spec.MutualTLSMode)
      ("mode must be one of the following: " ++ sprintStrings validModes))

/-- Go `(*RayCluster).validateImage`; reading `r.Spec.Image.Repository` through a nil `Image`
panics. -/
def RayCluster.validateImage (r : RayCluster) : Except GoPanic (List field.Error) :=
  let errs : List field.Error := []
  let fldPath := (field.NewPath "spec").Child "image"
  match r.Spec.Image with
  | none => .error .nilPointerDereference
  | some image =>
    let errs := if image.Repository = "" then
      errs ++ [field.Required (fldPath.Child "repository") "cannot be blank"] else errs
    let errs := if image.Tag = "" then
      errs ++ [field.Required (fldPath.Child "tag") "cannot be blank"] else errs
    .ok errs

/-- Go `(*RayCluster).validateWorkerReplicas`. -/
def RayCluster.validateWorkerReplicas (r : RayCluster) : Option field.Error :=
  match r.Spec.Worker.Replicas with
  | none => none
  | some replicas =>
    if replicas ≥ 0 then none
    else some (field.Invalid (((field.NewPath "spec").Child "worker").Child "replicas")
      (.intPtr replicas) "should be greater than or equal to 0")

/-- Go `v1.ResourceCPU`. -/
def ResourceCPU : String := "cpu"

/-- Go `(*RayCluster).validateWorkerResourceRequestsCPU`. -/
def RayCluster.validateWorkerResourceRequestsCPU (r : RayCluster) : Option field.Error :=
  if r.Spec.Autoscaling = none then none
  else if (r.Spec.Worker.Resources.Requests.lookup ResourceCPU).isSome then none
  else some (field.Required
    (((((field.NewPath "spec").Child "worker").Child "resources").Child "requests").Child "cpu")
    "is mandatory when autoscaling is enabled")

/-- Go `(*RayCluster).validateObjectStoreMemoryBytes`. -/
def RayCluster.validateObjectStoreMemoryBytes (r : RayCluster) : Option field.Error :=
  match r.Spec.ObjectStoreMemoryBytes with
  | none => none
  | some memBytes =>
    if memBytes ≥ 78643200 then none
    else some (field.Invalid ((field.NewPath "spec").Child "objectStoreMemoryBytes")
      (.intPtr memBytes) "should be greater than or equal to 78643200")

/-- Go `(*RayCluster).validatePort`; `%d` prints the decimal numeral. -/
def RayCluster.validatePort (_r : RayCluster) (port : Int) (fldPath : field.Path) :
    Option field.Error :=
  if port < rayMinValidPort then
    some (field.Invalid fldPath (.int port)
      ("must be greater than or equal to " ++ toString rayMinValidPort))
  else if port > rayMaxValidPort then
    some (field.Invalid fldPath (.int port)
      ("must be less than or equal to " ++ toString rayMaxValidPort))
  else none

/-- The Go idiom `if err := f(); err != nil { errs = append(errs, err) }`. -/
def appendIfErr (errs : List field.Error) (err : Option field.Error) : List field.Error :=
  match err with
  | some e => errs ++ [e]
  | none => errs

/-- The Go idiom `if errs := f(); errs != nil { allErrs = append(allErrs, errs...) }`. -/
def appendIfErrs (allErrs errs : List field.Error) : List field.Error :=
  if errs ≠ [] then allErrs ++ errs else allErrs

/-- Go `(*RayCluster).validatePorts`. -/
def RayCluster.validatePorts (r : RayCluster) : List field.Error :=
  let errs : List field.Error := []
  let errs := appendIfErr errs (r.validatePort r.Spec.Port ((field.NewPath "spec").Child "port"))
  let errs := (rangeSlice r.Spec.RedisShardPorts).foldl (fun errs ip =>
    let name := "redisShardPorts[" ++ toString ip.1 ++ "]"
    appendIfErr errs (r.validatePort ip.2 ((field.NewPath "spec").Child name))) errs
  let errs := (rangeSlice r.Spec.WorkerPorts).foldl (fun errs ip =>
    let name := "workerPorts[" ++ toString ip.1 ++ "]"
    appendIfErr errs (r.validatePort ip.2 ((field.NewPath "spec").Child name))) errs
  let errs := appendIfErr errs
    (r.validatePort r.Spec.ClientServerPort ((field.NewPath "spec").Child "clientServerPort"))
  let errs := appendIfErr errs
    (r.validatePort r.Spec.ObjectManagerPort ((field.NewPath "spec").Child "objectManagerPort"))
  let errs := appendIfErr errs
    (r.validatePort r.Spec.NodeManagerPort ((field.NewPath "spec").Child "nodeManagerPort"))
  let errs := appendIfErr errs
    (r.validatePort r.Spec.GCSServerPort ((field.NewPath "spec").Child "gcsServerPort"))
  let errs := appendIfErr errs
    (r.validatePort r.Spec.DashboardPort ((field.NewPath "spec").Child "dashboardPort"))
  errs

/-- Go `(*RayCluster).validateAutoscaler`. -/
def RayCluster.validateAutoscaler (r : RayCluster) : List field.Error :=
  let errs : List field.Error := []
  match r.Spec.Autoscaling with
  | none => []
  | some as_ =>
    let fldPath := (field.NewPath "spec").Child "autoscaling"
    let errs := match as_.MinReplicas with
      | none => errs
      | some minReplicas =>
        let errs := if minReplicas < 1 then
          errs ++ [field.Invalid (fldPath.Child "minReplicas") (.intPtr minReplicas)
            "must be greater than or equal to 1"] else errs
        let errs := if minReplicas > as_.MaxReplicas then
          errs ++ [field.Invalid (fldPath.Child "maxReplicas") (.int as_.MaxReplicas)
            "cannot be less than spec.autoscaling.minReplicas"] else errs
        errs
    let errs := if as_.MaxReplicas < 1 then
      errs ++ [field.Invalid (fldPath.Child "maxReplicas") (.int as_.MaxReplicas)
        "must be greater than or equal to 1"] else errs
    let errs := match as_.AverageCPUUtilization with
      | none => errs
      | some averageCPUUtilization =>
        if averageCPUUtilization ≤ 0 then
          errs ++ [field.Invalid (fldPath.Child "averageUtilization")
            (.intPtr averageCPUUtilization) "must be greater than 0"] else errs
    let errs := match as_.ScaleDownStabilizationWindowSeconds with
      | none => errs
      | some window =>
        if window < 0 then
          errs ++ [field.Invalid (fldPath.Child "scaleDownStabilizationWindowSeconds")
            (.intPtr window) "must be greater than or equal to 0"] else errs
    errs

/-- Go `(*RayCluster).validateRayCluster`: `.ok none` is the nil error (the spec is accepted),
`.ok (some e)` the invalid-object error, `.error _` a panic inside a rule. -/
def RayCluster.validateRayCluster (modeValue : List (String × Int)) (r : RayCluster) :
    Except GoPanic (Option StatusError) :=
  let allErrs : List field.Error := []
  let allErrs := appendIfErr allErrs (r.validateMutualTLSMode modeValue)
  let allErrs := appendIfErr allErrs r.validateWorkerReplicas
  let allErrs := appendIfErr allErrs r.validateWorkerResourceRequestsCPU
  let allErrs := appendIfErr allErrs r.validateObjectStoreMemoryBytes
  let allErrs := appendIfErrs allErrs r.validatePorts
  let allErrs := appendIfErrs allErrs r.validateAutoscaler
  match r.validateImage with
  | .error p => .error p
  | .ok errs =>
    let allErrs := appendIfErrs allErrs errs
    if allErrs.length = 0 then .ok none
    else .ok (some (NewInvalid { Group := GroupVersionGroup, Kind := "RayCluster" } r.Name allErrs))

end v1alpha1

/-! ## `pkg/cluster/metadata/metadata.go` -/

namespace metadata

/-- Go `client.Object`, as far as the naming provider reads it: `GetName()` and the namespace. -/
structure Object where
  Name : String
  Namespace : String
  deriving DecidableEq, Repr

/-- Go `obj.GetName()`. -/
def Object.GetName (obj : Object) : String := obj.Name

/-- Go `type Component string`. -/
abbrev Component := String

/-- Go `ComponentNone`. -/
def ComponentNone : Component := "none"

/-- Go `Provider`: the application name and the version extractor. -/
structure Provider where
  application : String
  version : Object → String

/-- Go `NewProvider`. -/
def NewProvider (name : String) (fn : Object → String) : Provider :=
  { application := name, version := fn }

/-- Go `(*Provider).InstanceName`; `fmt.Sprintf("%s-%s", a, b)` is `a ++ "-" ++ b`. -/
def Provider.InstanceName (p : Provider) (obj : Object) (comp : Component) : String :=
  if comp = ComponentNone then
    obj.GetName ++ "-" ++ p.application
  else
    obj.GetName ++ "-" ++ p.application ++ "-" ++ comp

end metadata

/-! ## `pkg/resources/spark/spark.go` -/

namespace spark

/-- Go `type Component string`. -/
abbrev Component := String

/-- Go `ComponentNone`: a generic spark resource. -/
def ComponentNone : Component := "none"

/-- Go `ComponentMaster`: a spark master resource. -/
def ComponentMaster : Component := "master"

/-- Go `ComponentWorker`: a spark worker resource. -/
def ComponentWorker : Component := "worker"

/-- Go `ApplicationName`. -/
def ApplicationName : String := "spark"

/-- Go `InstanceObjectName(instance, comp)`. -/
def InstanceObjectName (inst : String) (comp : Component) : String :=
  if comp = ComponentNone then
    inst ++ "-" ++ ApplicationName
  else
    inst ++ "-" ++ ApplicationName ++ "-" ++ comp

/-- Go `HeadServiceName`. -/
def HeadServiceName (name : String) : String := InstanceObjectName name ComponentMaster

/-- Go `HeadlessServiceName`. -/
def HeadlessServiceName (name : String) : String := InstanceObjectName name ComponentWorker

end spark

/-! ## Specification-side definitions

These follow the wording of the specification, not the code; the theorems compare them with
the functions above. -/

namespace v1alpha1

/-- Specification of the declared ports: every port of the spec with the field path that names
it, in the order port, redis shard ports, worker ports, client-server, object-manager,
node-manager, GCS-server, dashboard. -/
def declaredPorts (r : RayCluster) : List (String × Int) :=
  [("spec.port", r.Spec.Port)]
    ++ (rangeSlice r.Spec.RedisShardPorts).map
        (fun ip => ("spec.redisShardPorts[" ++ toString ip.1 ++ "]", ip.2))
    ++ (rangeSlice r.Spec.WorkerPorts).map
        (fun ip => ("spec.workerPorts[" ++ toString ip.1 ++ "]", ip.2))
    ++ [("spec.clientServerPort", r.Spec.ClientServerPort),
        ("spec.objectManagerPort", r.Spec.ObjectManagerPort),
        ("spec.nodeManagerPort", r.Spec.NodeManagerPort),
        ("spec.gcsServerPort", r.Spec.GCSServerPort),
        ("spec.dashboardPort", r.Spec.DashboardPort)]

/-- Specification of the report entry of one declared port: none inside `[1024, 65535]`,
otherwise an invalid-value entry at the port's field path, carrying the port, with the reason
for a port below or above the range. -/
def portEntry (fieldPath : String) (port : Int) : Option field.Error :=
  if port < 1024 then
    some { Type_ := .ErrorTypeInvalid, Field := fieldPath, BadValue := .int port,
           Detail := "must be greater than or equal to 1024" }
  else if 65535 < port then
    some { Type_ := .ErrorTypeInvalid, Field := fieldPath, BadValue := .int port,
           Detail := "must be less than or equal to 65535" }
  else none

/-- Specification of a valid autoscaling policy: max replicas at least 1, min replicas (if set)
between 1 and max replicas, utilization target (if set) positive, stabilization window (if set)
not negative. -/
def validPolicy (a : Autoscaling) : Prop :=
  1 ≤ a.MaxReplicas ∧
  (∀ m ∈ a.MinReplicas, 1 ≤ m ∧ m ≤ a.MaxReplicas) ∧
  (∀ u ∈ a.AverageCPUUtilization, 0 < u) ∧
  (∀ w ∈ a.ScaleDownStabilizationWindowSeconds, 0 ≤ w)

instance (a : Autoscaling) : Decidable (validPolicy a) := by
  unfold validPolicy
  infer_instance

/-- Specification of the entry reported when min replicas exceeds max replicas: an
invalid-value entry at `spec.autoscaling.maxReplicas` carrying the max replicas value. -/
def minAboveMaxEntry (maxReplicas : Int) : field.Error :=
  { Type_ := .ErrorTypeInvalid, Field := "spec.autoscaling.maxReplicas",
    BadValue := .int maxReplicas, Detail := "cannot be less than spec.autoscaling.minReplicas" }

/-- Specification of the entry reported for a missing worker cpu request: a required-field
entry at `spec.worker.resources.requests.cpu`. -/
def cpuRequiredEntry : field.Error :=
  { Type_ := .ErrorTypeRequired, Field := "spec.worker.resources.requests.cpu",
    BadValue := .str "", Detail := "is mandatory when autoscaling is enabled" }

/-- The report of a validation outcome: no entry for the nil error. -/
def reportOf (e : Option StatusError) : List field.Error :=
  match e with
  | none => []
  | some err => err.errs

/-- The entries of a rule that returns at most one error. -/
def entriesOf (e : Option field.Error) : List field.Error :=
  match e with
  | none => []
  | some err => [err]

end v1alpha1

/-! ## Sample inputs -/

namespace v1alpha1

/-- A cluster whose spec sets nothing: every field has its Go zero value. -/
def emptyCluster : RayCluster :=
  { Name := "example"
    Spec :=
    { Image := none
      Autoscaling := none
      Port := 0
      RedisShardPorts := none
      ClientServerPort := 0
      ObjectManagerPort := 0
      NodeManagerPort := 0
      GCSServerPort := 0
      WorkerPorts := none
      ObjectStoreMemoryBytes := none
      DashboardPort := 0
      EnableDashboard := none
      NetworkPolicy := { Enabled := none, ClientServerLabels := none, DashboardLabels := none }
      MutualTLSMode := ""
      Worker := { Replicas := none, Resources := { Limits := [], Requests := [] } } } }

/-- A cluster whose spec sets every field that `Default` would fill. -/
def fullCluster : RayCluster :=
  { Name := "example"
    Spec :=
    { Image := some { Repository := "custom/ray", Tag := "2.0.0", PullPolicy := "" }
      Autoscaling := some
        { MinReplicas := some 1
          MaxReplicas := 4
          AverageCPUUtilization := some 50
          ScaleDownStabilizationWindowSeconds := some 0 }
      Port := 7000
      RedisShardPorts := some [7001]
      ClientServerPort := 7002
      ObjectManagerPort := 7003
      NodeManagerPort := 7004
      GCSServerPort := 7005
      WorkerPorts := some [7100, 7101]
      ObjectStoreMemoryBytes := some 78643200
      DashboardPort := 7006
      EnableDashboard := some false
      NetworkPolicy :=
      { Enabled := some false
        ClientServerLabels := some [("app", "client")]
        DashboardLabels := some [] }
      MutualTLSMode := "STRICT"
      Worker :=
      { Replicas := some 0
        Resources := { Limits := [], Requests := [("cpu", "500m")] } } } }

/-- The cluster `fullCluster` with the primary port set to 80, its only port out of range. -/
def port80Cluster : RayCluster :=
  { fullCluster with Spec := { fullCluster.Spec with Port := 80 } }

/-- The cluster `fullCluster` with an autoscaling policy of min replicas 5 and max replicas 3. -/
def minAboveMaxCluster : RayCluster :=
  { fullCluster with
    Spec :=
    { fullCluster.Spec with
      Autoscaling := some
        { MinReplicas := some 5
          MaxReplicas := 3
          AverageCPUUtilization := none
          ScaleDownStabilizationWindowSeconds := none } } }

/-- The cluster `minAboveMaxCluster` (min replicas 5, max replicas 3) with no image set. -/
def minAboveMaxNoImageCluster : RayCluster :=
  { minAboveMaxCluster with Spec := { minAboveMaxCluster.Spec with Image := none } }

/-- A cluster that breaks four rules at once: a negative worker replica count, the primary port
80, min replicas above max replicas and a blank image tag. -/
def manyErrorsCluster : RayCluster :=
  { minAboveMaxCluster with
    Spec :=
    { minAboveMaxCluster.Spec with
      Port := 80
      Worker := { minAboveMaxCluster.Spec.Worker with Replicas := some (-1) }
      Image := some { Repository := "custom/ray", Tag := "", PullPolicy := "" } } }

/-- The table `PeerAuthentication_MutualTLS_Mode_value` of the istio API, in one iteration
order; used only as a sample argument. -/
def sampleModeValue : List (String × Int) :=
  [("UNSET", 0), ("DISABLE", 1), ("PERMISSIVE", 2), ("STRICT", 3)]

end v1alpha1

/-! ## `pkg/cluster/metadata/metadata.go`: labels -/

namespace metadata

/-- A Go `map[string]string`, as the list of its entries, the keys distinct; a nil map is the
empty list. -/
abbrev StringMap := List (String × String)

/-- Go `m[k] = v`: the entry for `k` is replaced, or added when the map has none. -/
def setKey (m : StringMap) (k v : String) : StringMap :=
  if (m.lookup k).isSome then m.map (fun kv => if kv.1 = k then (k, v) else kv)
  else m ++ [(k, v)]

/-- Go `ApplicationNameLabelKey`. -/
def ApplicationNameLabelKey : String := "app.kubernetes.io/name"

/-- Go `ApplicationInstanceLabelKey`. -/
def ApplicationInstanceLabelKey : String := "app.kubernetes.io/instance"

/-- Go `ApplicationVersionLabelKey`. -/
def ApplicationVersionLabelKey : String := "app.kubernetes.io/version"

/-- Go `ApplicationComponentLabelKey`. -/
def ApplicationComponentLabelKey : String := "app.kubernetes.io/component"

/-- Go `ApplicationManagedByLabelKey`. -/
def ApplicationManagedByLabelKey : String := "app.kubernetes.io/managed-by"

/-- Go `ApplicationManagedByLabelValue`. -/
def ApplicationManagedByLabelValue : String := "distributed-compute-operator"

/-- Go `(*Provider).StandardLabels`. -/
def Provider.StandardLabels (p : Provider) (obj : Object) : StringMap :=
  [(ApplicationNameLabelKey, p.application),
   (ApplicationInstanceLabelKey, obj.GetName),
   (ApplicationVersionLabelKey, p.version obj),
   (ApplicationManagedByLabelKey, ApplicationManagedByLabelValue)]

/-- Go `(*Provider).StandardLabelsWithComponent`. -/
def Provider.StandardLabelsWithComponent (p : Provider) (obj : Object) (comp : Component) :
    StringMap :=
  let labels := p.StandardLabels obj
  let labels := setKey labels ApplicationComponentLabelKey comp
  labels

/-- Go `(*Provider).MatchLabels`. -/
def Provider.MatchLabels (p : Provider) (obj : Object) : StringMap :=
  [(ApplicationNameLabelKey, p.application),
   (ApplicationInstanceLabelKey, obj.GetName)]

/-- Go `(*Provider).MatchLabelsWithComponent`. -/
def Provider.MatchLabelsWithComponent (p : Provider) (obj : Object) (comp : Component) :
    StringMap :=
  let labels := p.MatchLabels obj
  let labels := setKey labels ApplicationComponentLabelKey comp
  labels

end metadata

/-! ## The parts of `k8s.io/api` the dask data source builds -/

namespace corev1

/-- Go `corev1.ObjectFieldSelector`. -/
structure ObjectFieldSelector where
  FieldPath : String
  deriving DecidableEq, Repr

/-- Go `corev1.EnvVarSource`: the field reference, the one source the package uses. -/
structure EnvVarSource where
  FieldRef : Option ObjectFieldSelector
  deriving DecidableEq, Repr

/-- Go `corev1.EnvVar`. -/
structure EnvVar where
  Name : String
  Value : String
  ValueFrom : Option EnvVarSource
  deriving DecidableEq, Repr

/-- Go `corev1.ContainerPort`: the name and the number. -/
structure ContainerPort where
  Name : String
  ContainerPort : Int
  deriving DecidableEq, Repr

/-- Go `intstr.IntOrString`. -/
inductive IntOrString where
  | int (v : Int)
  | str (s : String)
  deriving DecidableEq, Repr

/-- Go `intstr.FromString`. -/
def FromString (val : String) : IntOrString := .str val

/-- Go `corev1.HTTPGetAction`. -/
structure HTTPGetAction where
  Path : String
  Port : IntOrString
  deriving DecidableEq, Repr

/-- Go `corev1.Handler`. -/
structure Handler where
  HTTPGet : Option HTTPGetAction
  deriving DecidableEq, Repr

/-- Go `corev1.Probe`. -/
structure Probe where
  Handler : Handler
  deriving DecidableEq, Repr

/-- Go `corev1.Affinity`, `Toleration`, `Volume`, `VolumeMount`, `LocalObjectReference`,
`PodSecurityContext` and init `Container`: values the data source passes on unread, kept as
uninterpreted text. -/
abbrev Passed := String

/-- Go `corev1.Container`: the fields the data source sets. -/
structure Container where
  Name : String
  Command : List String
  Args : List String
  Image : String
  ImagePullPolicy : String
  Ports : List ContainerPort
  Env : List EnvVar
  VolumeMounts : List Passed
  Resources : v1alpha1.ResourceRequirements
  LivenessProbe : Option Probe
  ReadinessProbe : Option Probe
  deriving DecidableEq, Repr

/-- Go `corev1.PodSpec`: the fields the data source sets. -/
structure PodSpec where
  ServiceAccountName : String
  NodeSelector : metadata.StringMap
  Affinity : Option Passed
  Tolerations : List Passed
  InitContainers : List Passed
  ImagePullSecrets : List Passed
  SecurityContext : Option Passed
  Volumes : List Passed
  Containers : List Container
  deriving DecidableEq, Repr

/-- Go `metav1.ObjectMeta`: the fields the data source sets. -/
structure ObjectMeta where
  Name : String
  Namespace : String
  Labels : metadata.StringMap
  Annotations : metadata.StringMap
  deriving DecidableEq, Repr

/-- Go `corev1.PodTemplateSpec`. -/
structure PodTemplateSpec where
  ObjectMeta : ObjectMeta
  Spec : PodSpec
  deriving DecidableEq, Repr

end corev1

namespace appsv1

/-- Go `metav1.LabelSelector`: the match labels. -/
structure LabelSelector where
  MatchLabels : metadata.StringMap
  deriving DecidableEq, Repr

/-- Go `appsv1.StatefulSetUpdateStrategy`: the strategy type. -/
structure StatefulSetUpdateStrategy where
  Type_ : String
  deriving DecidableEq, Repr

/-- Go `appsv1.ParallelPodManagement`. -/
def ParallelPodManagement : String := "Parallel"

/-- Go `appsv1.RollingUpdateStatefulSetStrategyType`. -/
def RollingUpdateStatefulSetStrategyType : String := "RollingUpdate"

/-- Go `appsv1.StatefulSetSpec`: the fields the data source sets. -/
structure StatefulSetSpec where
  Replicas : Option Int
  ServiceName : String
  Selector : Option LabelSelector
  Template : corev1.PodTemplateSpec
  PodManagementPolicy : String
  UpdateStrategy : StatefulSetUpdateStrategy
  deriving DecidableEq, Repr

/-- Go `appsv1.StatefulSet`. -/
structure StatefulSet where
  ObjectMeta : corev1.ObjectMeta
  Spec : StatefulSetSpec
  deriving DecidableEq, Repr

end appsv1

/-! ## `pkg/cluster/dask/statefulset.go` -/

namespace dask

open v1alpha1 (OCIImageDefinition ResourceRequirements GoPanic)

/-- Modelled from the spec: the declaration of Go `WorkloadConfig` is not among the sources.
The per-role workload configuration of the data model (labels, annotations, node selector,
affinity, tolerations, init containers, volumes, volume mounts, resource requests and limits),
under the field names the data source reads. -/
structure WorkloadConfig where
  Labels : metadata.StringMap
  Annotations : metadata.StringMap
  NodeSelector : metadata.StringMap
  Affinity : Option corev1.Passed
  Tolerations : List corev1.Passed
  InitContainers : List corev1.Passed
  Volumes : List corev1.Passed
  VolumeMounts : List corev1.Passed
  Resources : ResourceRequirements
  deriving DecidableEq, Repr

/-- Modelled from the spec: the declaration of the worker part of Go `DaskClusterSpec` is not
among the sources. The worker's workload configuration and its replica count, an `int32` that
`workerConfig.replicas` returns as it is. -/
structure DaskClusterWorker where
  WorkloadConfig : WorkloadConfig
  Replicas : Int
  deriving DecidableEq, Repr

/-- Modelled from the spec: the declaration of Go `DaskClusterSpec` is not among the sources.
The attributes of the cluster spec that the data source reads, under the field names and Go
types with which `statefulset.go` reads them. -/
structure DaskClusterSpec where
  Image : Option OCIImageDefinition
  ImagePullSecrets : List corev1.Passed
  PodSecurityContext : Option corev1.Passed
  EnvVars : List corev1.EnvVar
  Scheduler : WorkloadConfig
  Worker : DaskClusterWorker
  SchedulerPort : Int
  DashboardPort : Int
  WorkerPort : Int
  NannyPort : Int
  deriving DecidableEq, Repr

/-- Modelled from the spec: the declaration of Go `DaskCluster` is not among the sources. The
object name and namespace, and the cluster spec. -/
structure DaskCluster where
  Name : String
  Namespace : String
  Spec : DaskClusterSpec
  deriving DecidableEq, Repr

/-- The cluster as a Go `client.Object` of the naming provider. -/
def DaskCluster.asObject (dc : DaskCluster) : metadata.Object :=
  { Name := dc.Name, Namespace := dc.Namespace }

/-- The declarations of the package `dask` and of `pkg/util` that `statefulset.go` uses and the
sources do not contain, taken as parameters: the constant `ApplicationName`, the application
name and version extractor of the package's naming provider `meta`, the components
`ComponentScheduler` and `ComponentWorker`, and the function `util.ParseImageDefinition`. -/
structure Env where
  ApplicationName : String
  metaApplication : String
  metaVersion : DaskCluster → String
  ComponentScheduler : metadata.Component
  ComponentWorker : metadata.Component
  ParseImageDefinition : Option OCIImageDefinition → Except String String

/-- The package's naming provider `meta`, applied to the cluster `dc`. -/
def Env.meta (env : Env) (dc : DaskCluster) : metadata.Provider :=
  metadata.NewProvider env.metaApplication (fun _ => env.metaVersion dc)

/-- Modelled from the spec: `util.MergeStringMaps` is not among the sources. "labels =
merge(role-scoped user labels, standard role labels) with standard labels taking precedence on
key collision": the entries of the second map, then the entries of the first map whose key the
second map does not define. -/
def MergeStringMaps (src dst : metadata.StringMap) : metadata.StringMap :=
  dst ++ src.filter (fun kv => (dst.lookup kv.1).isNone)

/-- Go `schedulerConfig`. -/
structure schedulerConfig where
  dc : DaskCluster
  deriving DecidableEq, Repr

/-- Go `workerConfig`. -/
structure workerConfig where
  dc : DaskCluster
  deriving DecidableEq, Repr

/-- Go `(*schedulerConfig).podConfig`. -/
def schedulerConfig.podConfig (c : schedulerConfig) : WorkloadConfig := c.dc.Spec.Scheduler

/-- Go `(*schedulerConfig).replicas`. -/
def schedulerConfig.replicas (_c : schedulerConfig) : Int := 1

/-- Go `(*schedulerConfig).command`. -/
def schedulerConfig.command (_c : schedulerConfig) : List String := ["dask-scheduler"]

/-- Go `(*schedulerConfig).commandArgs`. -/
def schedulerConfig.commandArgs (c : schedulerConfig) : List String :=
  ["--port=" ++ toString c.dc.Spec.SchedulerPort,
   "--dashboard-address=:" ++ toString c.dc.Spec.DashboardPort]

/-- Go `(*schedulerConfig).containerEnv`: nil. -/
def schedulerConfig.containerEnv (_c : schedulerConfig) : List corev1.EnvVar := []

/-- Go `(*schedulerConfig).containerPorts`. -/
def schedulerConfig.containerPorts (c : schedulerConfig) : List corev1.ContainerPort :=
  [{ Name := "serve", ContainerPort := c.dc.Spec.SchedulerPort },
   { Name := "dashboard", ContainerPort := c.dc.Spec.DashboardPort }]

/-- Go `(*workerConfig).podConfig`. -/
def workerConfig.podConfig (c : workerConfig) : WorkloadConfig := c.dc.Spec.Worker.WorkloadConfig

/-- Go `(*workerConfig).replicas`. -/
def workerConfig.replicas (c : workerConfig) : Int := c.dc.Spec.Worker.Replicas

/-- Go `(*workerConfig).command`. -/
def workerConfig.command (_c : workerConfig) : List String := ["dask-worker"]

/-- Go `(*workerConfig).commandArgs`. -/
def workerConfig.commandArgs (env : Env) (c : workerConfig) : List String :=
  ["--name=$(MY_POD_NAME)",
   "--worker-port=" ++ toString c.dc.Spec.WorkerPort,
   "--nanny-port=" ++ toString c.dc.Spec.NannyPort,
   "--dashboard-address=:" ++ toString c.dc.Spec.DashboardPort,
   (env.meta c.dc).InstanceName c.dc.asObject env.ComponentScheduler ++ ":"
     ++ toString c.dc.Spec.SchedulerPort]

/-- Go `(*workerConfig).containerEnv`. -/
def workerConfig.containerEnv (_c : workerConfig) : List corev1.EnvVar :=
  [{ Name := "MY_POD_NAME", Value := "",
     ValueFrom := some { FieldRef := some { FieldPath := "metadata.name" } } }]

/-- Go `(*workerConfig).containerPorts`. -/
def workerConfig.containerPorts (c : workerConfig) : List corev1.ContainerPort :=
  [{ Name := "worker", ContainerPort := c.dc.Spec.WorkerPort },
   { Name := "nanny", ContainerPort := c.dc.Spec.NannyPort },
   { Name := "dashboard", ContainerPort := c.dc.Spec.DashboardPort }]

/-- Go interface `typeConfig`, as the sum of its two implementations. -/
inductive typeConfig where
  | scheduler (c : schedulerConfig)
  | worker (c : workerConfig)
  deriving DecidableEq, Repr

/-- Go `typeConfig.podConfig`, by dynamic dispatch. -/
def typeConfig.podConfig : typeConfig → WorkloadConfig
  | .scheduler c => c.podConfig
  | .worker c => c.podConfig

/-- Go `typeConfig.replicas`, by dynamic dispatch. -/
def typeConfig.replicas : typeConfig → Int
  | .scheduler c => c.replicas
  | .worker c => c.replicas

/-- Go `typeConfig.command`, by dynamic dispatch. -/
def typeConfig.command : typeConfig → List String
  | .scheduler c => c.command
  | .worker c => c.command

/-- Go `typeConfig.commandArgs`, by dynamic dispatch. -/
def typeConfig.commandArgs (env : Env) : typeConfig → List String
  | .scheduler c => c.commandArgs
  | .worker c => c.commandArgs env

/-- Go `typeConfig.containerEnv`, by dynamic dispatch. -/
def typeConfig.containerEnv : typeConfig → List corev1.EnvVar
  | .scheduler c => c.containerEnv
  | .worker c => c.containerEnv

/-- Go `typeConfig.containerPorts`, by dynamic dispatch. -/
def typeConfig.containerPorts : typeConfig → List corev1.ContainerPort
  | .scheduler c => c.containerPorts
  | .worker c => c.containerPorts

/-- Go `statefulSetDS`. -/
structure statefulSetDS where
  tc : typeConfig
  dc : DaskCluster
  comp : metadata.Component
  deriving DecidableEq, Repr

/-- Go `SchedulerStatefulSet`. -/
def SchedulerStatefulSet (env : Env) (dc : DaskCluster) : statefulSetDS :=
  let tc := typeConfig.scheduler { dc := dc }
  { tc := tc, dc := dc, comp := env.ComponentScheduler }

/-- Go `WorkerStatefulSet`. -/
def WorkerStatefulSet (env : Env) (dc : DaskCluster) : statefulSetDS :=
  let tc := typeConfig.worker { dc := dc }
  { tc := tc, dc := dc, comp := env.ComponentWorker }

/-- Go `(*statefulSetDS).applicationName`. -/
def statefulSetDS.applicationName (env : Env) (_s : statefulSetDS) : String :=
  env.ApplicationName

/-- Go `(*statefulSetDS).name`. -/
def statefulSetDS.name (env : Env) (s : statefulSetDS) : String :=
  (env.meta s.dc).InstanceName s.dc.asObject s.comp

/-- Go `(*statefulSetDS).namespace`. -/
def statefulSetDS.namespace (s : statefulSetDS) : String := s.dc.Namespace

/-- Go `(*statefulSetDS).labels`. -/
def statefulSetDS.labels (env : Env) (s : statefulSetDS) : metadata.StringMap :=
  let labels := (env.meta s.dc).StandardLabelsWithComponent s.dc.asObject s.comp
  MergeStringMaps s.tc.podConfig.Labels labels

/-- Go `(*statefulSetDS).matchLabels`. -/
def statefulSetDS.matchLabels (env : Env) (s : statefulSetDS) : metadata.StringMap :=
  (env.meta s.dc).MatchLabelsWithComponent s.dc.asObject s.comp

/-- Go `(*statefulSetDS).serviceName`. -/
def statefulSetDS.serviceName (env : Env) (s : statefulSetDS) : String :=
  (env.meta s.dc).InstanceName s.dc.asObject s.comp

/-- Go `(*statefulSetDS).serviceAccountName`. -/
def statefulSetDS.serviceAccountName (env : Env) (s : statefulSetDS) : String :=
  (env.meta s.dc).InstanceName s.dc.asObject metadata.ComponentNone

/-- Go `(*statefulSetDS).image`. -/
def statefulSetDS.image (s : statefulSetDS) : Option OCIImageDefinition := s.dc.Spec.Image

/-- Go `(*statefulSetDS).imagePullSecrets`. -/
def statefulSetDS.imagePullSecrets (s : statefulSetDS) : List corev1.Passed :=
  s.dc.Spec.ImagePullSecrets

/-- Go `(*statefulSetDS).securityContext`. -/
def statefulSetDS.securityContext (s : statefulSetDS) : Option corev1.Passed :=
  s.dc.Spec.PodSecurityContext

/-- Go `(*statefulSetDS).env`: the spec's variables, with the role's variables appended. -/
def statefulSetDS.env (s : statefulSetDS) : List corev1.EnvVar :=
  let envvars := s.dc.Spec.EnvVars
  let envvars := envvars ++ s.tc.containerEnv
  envvars

/-- Go `(*statefulSetDS).replicas`: a pointer to the role's replica count. -/
def statefulSetDS.replicas (s : statefulSetDS) : Option Int := some s.tc.replicas

/-- Go `(*statefulSetDS).command`. -/
def statefulSetDS.command (s : statefulSetDS) : List String := s.tc.command

/-- Go `(*statefulSetDS).commandArgs`. -/
def statefulSetDS.commandArgs (env : Env) (s : statefulSetDS) : List String :=
  s.tc.commandArgs env

/-- Go `(*statefulSetDS).ports`. -/
def statefulSetDS.ports (s : statefulSetDS) : List corev1.ContainerPort := s.tc.containerPorts

/-- Go `(*statefulSetDS).podAnnotations`. -/
def statefulSetDS.podAnnotations (s : statefulSetDS) : metadata.StringMap :=
  s.tc.podConfig.Annotations

/-- Go `(*statefulSetDS).nodeSelector`. -/
def statefulSetDS.nodeSelector (s : statefulSetDS) : metadata.StringMap :=
  s.tc.podConfig.NodeSelector

/-- Go `(*statefulSetDS).affinity`. -/
def statefulSetDS.affinity (s : statefulSetDS) : Option corev1.Passed := s.tc.podConfig.Affinity

/-- Go `(*statefulSetDS).tolerations`. -/
def statefulSetDS.tolerations (s : statefulSetDS) : List corev1.Passed :=
  s.tc.podConfig.Tolerations

/-- Go `(*statefulSetDS).initContainers`. -/
def statefulSetDS.initContainers (s : statefulSetDS) : List corev1.Passed :=
  s.tc.podConfig.InitContainers

/-- Go `(*statefulSetDS).volumes`. -/
def statefulSetDS.volumes (s : statefulSetDS) : List corev1.Passed := s.tc.podConfig.Volumes

/-- Go `(*statefulSetDS).volumeMounts`. -/
def statefulSetDS.volumeMounts (s : statefulSetDS) : List corev1.Passed :=
  s.tc.podConfig.VolumeMounts

/-- Go `(*statefulSetDS).resources`. -/
def statefulSetDS.resources (s : statefulSetDS) : ResourceRequirements :=
  s.tc.podConfig.Resources

/-- Go `(*statefulSetDS).probe`. -/
def statefulSetDS.probe (_s : statefulSetDS) : Option corev1.Probe :=
  some { Handler := { HTTPGet := some { Path := "/health", Port := corev1.FromString "dashboard" } } }

/-- The ways `GetStatefulSet` ends without a StatefulSet: the error it returns, or a panic. -/
inductive Failure where
  | error (msg : String)
  | panic (p : GoPanic)
  deriving DecidableEq, Repr

/-- Go `(*statefulSetDS).GetStatefulSet`. The image is parsed first and a parse error is
returned wrapped; reading `s.image().PullPolicy` through a nil image panics. -/
def statefulSetDS.GetStatefulSet (env : Env) (s : statefulSetDS) :
    Except Failure appsv1.StatefulSet :=
  match env.ParseImageDefinition s.image with
  | .error err => .error (.error ("cannot parse image: " ++ err))
  | .ok imageDef =>
    match s.image with
    | none => .error (.panic .nilPointerDereference)
    | some image =>
      .ok
        { ObjectMeta :=
          { Name := s.name env
            Namespace := s.namespace
            Labels := s.labels env
            Annotations := [] }
          Spec :=
          { Replicas := s.replicas
            ServiceName := s.serviceName env
            Selector := some { MatchLabels := s.matchLabels env }
            Template :=
            { ObjectMeta :=
              { Name := ""
                Namespace := ""
                Labels := s.labels env
                Annotations := s.podAnnotations }
              Spec :=
              { ServiceAccountName := s.serviceAccountName env
                NodeSelector := s.nodeSelector
                Affinity := s.affinity
                Tolerations := s.tolerations
                InitContainers := s.initContainers
                ImagePullSecrets := s.imagePullSecrets
                SecurityContext := s.securityContext
                Volumes := s.volumes
                Containers :=
                  [{ Name := s.applicationName env
                     Command := s.command
                     Args := s.commandArgs env
                     Image := imageDef
                     ImagePullPolicy := image.PullPolicy
                     Ports := s.ports
                     Env := s.env
                     VolumeMounts := s.volumeMounts
                     Resources := s.resources
                     LivenessProbe := s.probe
                     ReadinessProbe := s.probe }] } }
            PodManagementPolicy := appsv1.ParallelPodManagement
            UpdateStrategy := { Type_ := appsv1.RollingUpdateStatefulSetStrategyType } } }

end dask

/-! ## Specification-side definitions for naming and the dask data source -/

namespace metadata

/-- Specification of a name part that cannot be confused with the separator: the text contains
no `-`. -/
def dashFree (s : String) : Prop := '-' ∉ s.data

instance (s : String) : Decidable (dashFree s) := by
  unfold dashFree
  infer_instance

end metadata

/-! ## Sample inputs for the dask data source -/

namespace dask

/-- A workload configuration that sets nothing. -/
def emptyWorkload : WorkloadConfig :=
  { Labels := [], Annotations := [], NodeSelector := [], Affinity := none, Tolerations := [],
    InitContainers := [], Volumes := [], VolumeMounts := [],
    Resources := { Limits := [], Requests := [] } }

/-- A cluster of three workers with one spec-wide environment variable, and worker labels that
redefine a standard label key beside a key of their own. -/
def sampleCluster : DaskCluster :=
  { Name := "test"
    Namespace := "default"
    Spec :=
    { Image := some { Repository := "daskdev/dask", Tag := "2021.7.0", PullPolicy := "Always" }
      ImagePullSecrets := []
      PodSecurityContext := none
      EnvVars := [{ Name := "FOO", Value := "bar", ValueFrom := none }]
      Scheduler := emptyWorkload
      Worker :=
      { WorkloadConfig :=
          { emptyWorkload with
            Labels := [("app.kubernetes.io/managed-by", "me"), ("team", "data")] }
        Replicas := 3 }
      SchedulerPort := 8786
      DashboardPort := 8787
      WorkerPort := 3000
      NannyPort := 3001 } }

/-- Sample package declarations: the application `dask`, the image tag as version, the
components `scheduler` and `worker`, and an image parser that joins repository and tag. -/
def sampleEnv : Env :=
  { ApplicationName := "dask"
    metaApplication := "dask"
    metaVersion := fun dc => (dc.Spec.Image.map (fun i => i.Tag)).getD ""
    ComponentScheduler := "scheduler"
    ComponentWorker := "worker"
    ParseImageDefinition := fun image =>
      match image with
      | none => .error "nil image"
      | some i => .ok (i.Repository ++ ":" ++ i.Tag) }

end dask

/-! # Theorems -/

namespace v1alpha1

/-! ## Defaulting -/

/-- The result of `Default`, field by field: each of the thirteen defaulted fields is tested on
its own value in the incoming spec, the others are copied. -/
theorem RayCluster.Default_eq (r : RayCluster) :
    r.Default =
      { Name := r.Name
        Spec :=
        { Image := if r.Spec.Image = none then rayDefaultImage else r.Spec.Image
          Autoscaling := r.Spec.Autoscaling
          Port := if r.Spec.Port = 0 then rayDefaultRedisPort else r.Spec.Port
          RedisShardPorts :=
            if r.Spec.RedisShardPorts = none then rayDefaultRedisShardPorts
            else r.Spec.RedisShardPorts
          ClientServerPort :=
            if r.Spec.ClientServerPort = 0 then rayDefaultClientServerPort
            else r.Spec.ClientServerPort
          ObjectManagerPort :=
            if r.Spec.ObjectManagerPort = 0 then rayDefaultObjectManagerPort
            else r.Spec.ObjectManagerPort
          NodeManagerPort :=
            if r.Spec.NodeManagerPort = 0 then rayDefaultNodeManagerPort
            else r.Spec.NodeManagerPort
          GCSServerPort :=
            if r.Spec.GCSServerPort = 0 then rayDefaultGCSServerPort else r.Spec.GCSServerPort
          WorkerPorts := r.Spec.WorkerPorts
          ObjectStoreMemoryBytes := r.Spec.ObjectStoreMemoryBytes
          DashboardPort :=
            if r.Spec.DashboardPort = 0 then rayDefaultDashboardPort else r.Spec.DashboardPort
          EnableDashboard :=
            if r.Spec.EnableDashboard = none then rayDefaultEnableDashboard
            else r.Spec.EnableDashboard
          NetworkPolicy :=
          { Enabled :=
              if r.Spec.NetworkPolicy.Enabled = none then rayDefaultEnableNetworkPolicy
              else r.Spec.NetworkPolicy.Enabled
            ClientServerLabels :=
              if r.Spec.NetworkPolicy.ClientServerLabels = none then rayDefaultNetworkPolicyLabels
              else r.Spec.NetworkPolicy.ClientServerLabels
            DashboardLabels :=
              if r.Spec.NetworkPolicy.DashboardLabels = none then rayDefaultNetworkPolicyLabels
              else r.Spec.NetworkPolicy.DashboardLabels }
          MutualTLSMode := r.Spec.MutualTLSMode
          Worker :=
          { Replicas :=
              if r.Spec.Worker.Replicas = none then rayDefaultWorkerReplicas
              else r.Spec.Worker.Replicas
            Resources := r.Spec.Worker.Resources } } } := by
  rw [RayCluster.ext_iff, RayClusterSpec.ext_iff, RayClusterNetworkPolicy.ext_iff,
    RayClusterWorker.ext_iff]
  simp only [RayCluster.Default, apply_ite RayClusterSpec.Port,
    apply_ite RayClusterSpec.RedisShardPorts, apply_ite RayClusterSpec.ClientServerPort,
    apply_ite RayClusterSpec.ObjectManagerPort, apply_ite RayClusterSpec.GCSServerPort,
    apply_ite RayClusterSpec.NodeManagerPort, apply_ite RayClusterSpec.DashboardPort,
    apply_ite RayClusterSpec.EnableDashboard, apply_ite RayClusterSpec.NetworkPolicy,
    apply_ite RayClusterSpec.Worker, apply_ite RayClusterSpec.Image,
    apply_ite RayClusterSpec.Autoscaling, apply_ite RayClusterSpec.WorkerPorts,
    apply_ite RayClusterSpec.ObjectStoreMemoryBytes, apply_ite RayClusterSpec.MutualTLSMode,
    apply_ite RayClusterNetworkPolicy.Enabled, apply_ite RayClusterNetworkPolicy.ClientServerLabels,
    apply_ite RayClusterNetworkPolicy.DashboardLabels, apply_ite RayClusterWorker.Replicas,
    apply_ite RayClusterWorker.Resources, ite_self, and_self]

/-- Filling an absent value with a default that is itself present, twice, is filling it once. -/
theorem ite_fill_idem {α : Type} [DecidableEq α] (x z d : α) (h : d ≠ z) :
    (if (if x = z then d else x) = z then d else (if x = z then d else x)) =
      if x = z then d else x := by
  split_ifs <;> simp_all

/-- C1: `Default` is idempotent: for every RayCluster `r`, defaulting the defaulted cluster
gives the defaulted cluster again. -/
theorem RayCluster.Default_idempotent (r : RayCluster) : r.Default.Default = r.Default := by
  rw [RayCluster.Default_eq r.Default, RayCluster.Default_eq r]
  simp only [RayCluster.mk.injEq, RayClusterSpec.mk.injEq, RayClusterNetworkPolicy.mk.injEq,
    RayClusterWorker.mk.injEq, true_and, and_true]
  simp only [rayDefaultImage, rayDefaultRedisPort, rayDefaultRedisShardPorts,
    rayDefaultClientServerPort, rayDefaultObjectManagerPort, rayDefaultNodeManagerPort,
    rayDefaultGCSServerPort, rayDefaultDashboardPort, rayDefaultEnableDashboard,
    rayDefaultEnableNetworkPolicy, rayDefaultNetworkPolicyLabels, rayDefaultWorkerReplicas]
  simp [ite_fill_idem]

/-- C2: `Default` only fills absent fields. For every RayCluster, each defaulted field that is
already set (a non-zero port, a non-nil slice, flag, label map, replica count or image) has the
same value after `Default`, and the fields outside that set (object name, worker ports,
autoscaling, mutual-TLS mode, object-store memory, worker resources) are unchanged. -/
theorem RayCluster.Default_only_fills_absent (r : RayCluster) :
    (r.Spec.Port ≠ 0 → r.Default.Spec.Port = r.Spec.Port) ∧
    (r.Spec.ClientServerPort ≠ 0 → r.Default.Spec.ClientServerPort = r.Spec.ClientServerPort) ∧
    (r.Spec.ObjectManagerPort ≠ 0 →
      r.Default.Spec.ObjectManagerPort = r.Spec.ObjectManagerPort) ∧
    (r.Spec.GCSServerPort ≠ 0 → r.Default.Spec.GCSServerPort = r.Spec.GCSServerPort) ∧
    (r.Spec.NodeManagerPort ≠ 0 → r.Default.Spec.NodeManagerPort = r.Spec.NodeManagerPort) ∧
    (r.Spec.DashboardPort ≠ 0 → r.Default.Spec.DashboardPort = r.Spec.DashboardPort) ∧
    (r.Spec.RedisShardPorts ≠ none → r.Default.Spec.RedisShardPorts = r.Spec.RedisShardPorts) ∧
    (r.Spec.EnableDashboard ≠ none → r.Default.Spec.EnableDashboard = r.Spec.EnableDashboard) ∧
    (r.Spec.NetworkPolicy.Enabled ≠ none →
      r.Default.Spec.NetworkPolicy.Enabled = r.Spec.NetworkPolicy.Enabled) ∧
    (r.Spec.NetworkPolicy.ClientServerLabels ≠ none →
      r.Default.Spec.NetworkPolicy.ClientServerLabels = r.Spec.NetworkPolicy.ClientServerLabels) ∧
    (r.Spec.NetworkPolicy.DashboardLabels ≠ none →
      r.Default.Spec.NetworkPolicy.DashboardLabels = r.Spec.NetworkPolicy.DashboardLabels) ∧
    (r.Spec.Worker.Replicas ≠ none → r.Default.Spec.Worker.Replicas = r.Spec.Worker.Replicas) ∧
    (r.Spec.Image ≠ none → r.Default.Spec.Image = r.Spec.Image) ∧
    r.Default.Name = r.Name ∧
    r.Default.Spec.WorkerPorts = r.Spec.WorkerPorts ∧
    r.Default.Spec.Autoscaling = r.Spec.Autoscaling ∧
    r.Default.Spec.MutualTLSMode = r.Spec.MutualTLSMode ∧
    r.Default.Spec.ObjectStoreMemoryBytes = r.Spec.ObjectStoreMemoryBytes ∧
    r.Default.Spec.Worker.Resources = r.Spec.Worker.Resources := by
  rw [RayCluster.Default_eq r]
  refine ⟨?_, ?_, ?_, ?_, ?_, ?_, ?_, ?_, ?_, ?_, ?_, ?_, ?_, rfl, rfl, rfl, rfl, rfl, rfl⟩ <;>
    intro h <;> exact if_neg h

/-- C2 at `fullCluster`, where every defaulted field is set: `Default` returns each of them as
it was. -/
theorem RayCluster.Default_only_fills_absent_witness :
    fullCluster.Default.Spec.Port = 7000 ∧
    fullCluster.Default.Spec.ClientServerPort = 7002 ∧
    fullCluster.Default.Spec.ObjectManagerPort = 7003 ∧
    fullCluster.Default.Spec.GCSServerPort = 7005 ∧
    fullCluster.Default.Spec.NodeManagerPort = 7004 ∧
    fullCluster.Default.Spec.DashboardPort = 7006 ∧
    fullCluster.Default.Spec.RedisShardPorts = some [7001] ∧
    fullCluster.Default.Spec.EnableDashboard = some false ∧
    fullCluster.Default.Spec.NetworkPolicy.Enabled = some false ∧
    fullCluster.Default.Spec.NetworkPolicy.ClientServerLabels = some [("app", "client")] ∧
    fullCluster.Default.Spec.NetworkPolicy.DashboardLabels = some [] ∧
    fullCluster.Default.Spec.Worker.Replicas = some 0 ∧
    fullCluster.Default.Spec.Image =
      some { Repository := "custom/ray", Tag := "2.0.0", PullPolicy := "" } :=
  have h := RayCluster.Default_only_fills_absent fullCluster
  ⟨h.1 (by decide), h.2.1 (by decide), h.2.2.1 (by decide), h.2.2.2.1 (by decide),
    h.2.2.2.2.1 (by decide), h.2.2.2.2.2.1 (by decide), h.2.2.2.2.2.2.1 (by decide),
    h.2.2.2.2.2.2.2.1 (by decide), h.2.2.2.2.2.2.2.2.1 (by decide),
    h.2.2.2.2.2.2.2.2.2.1 (by decide), h.2.2.2.2.2.2.2.2.2.2.1 (by decide),
    h.2.2.2.2.2.2.2.2.2.2.2.1 (by decide), h.2.2.2.2.2.2.2.2.2.2.2.2.1 (by decide)⟩

/-- C3: for every RayCluster whose defaulted fields are all unset, `Default` produces the
documented defaults: port 6379, shard ports [6380, 6381], client-server port 10001,
object-manager port 2384, node-manager port 2385, GCS-server port 2386, dashboard port 8265,
dashboard enabled, network policy enabled, both label maps `ray-client = true`, one worker
replica and the image `rayproject/ray` with tag `1.3.0-cpu`. -/
theorem RayCluster.Default_documented_defaults (r : RayCluster)
    (hPort : r.Spec.Port = 0) (hShard : r.Spec.RedisShardPorts = none)
    (hClient : r.Spec.ClientServerPort = 0) (hObject : r.Spec.ObjectManagerPort = 0)
    (hNode : r.Spec.NodeManagerPort = 0) (hGCS : r.Spec.GCSServerPort = 0)
    (hDash : r.Spec.DashboardPort = 0) (hEnable : r.Spec.EnableDashboard = none)
    (hPolicy : r.Spec.NetworkPolicy.Enabled = none)
    (hClientLabels : r.Spec.NetworkPolicy.ClientServerLabels = none)
    (hDashLabels : r.Spec.NetworkPolicy.DashboardLabels = none)
    (hReplicas : r.Spec.Worker.Replicas = none) (hImage : r.Spec.Image = none) :
    r.Default.Spec.Port = 6379 ∧
    r.Default.Spec.RedisShardPorts = some [6380, 6381] ∧
    r.Default.Spec.ClientServerPort = 10001 ∧
    r.Default.Spec.ObjectManagerPort = 2384 ∧
    r.Default.Spec.NodeManagerPort = 2385 ∧
    r.Default.Spec.GCSServerPort = 2386 ∧
    r.Default.Spec.DashboardPort = 8265 ∧
    r.Default.Spec.EnableDashboard = some true ∧
    r.Default.Spec.NetworkPolicy.Enabled = some true ∧
    r.Default.Spec.NetworkPolicy.ClientServerLabels = some [("ray-client", "true")] ∧
    r.Default.Spec.NetworkPolicy.DashboardLabels = some [("ray-client", "true")] ∧
    r.Default.Spec.Worker.Replicas = some 1 ∧
    (∃ image, r.Default.Spec.Image = some image ∧
      image.Repository = "rayproject/ray" ∧ image.Tag = "1.3.0-cpu") := by
  rw [RayCluster.Default_eq r]
  simp only [hPort, hShard, hClient, hObject, hNode, hGCS, hDash, hEnable, hPolicy,
    hClientLabels, hDashLabels, hReplicas, hImage, if_true]
  exact ⟨rfl, rfl, rfl, rfl, rfl, rfl, rfl, rfl, rfl, rfl, rfl, rfl, _, rfl, rfl, rfl⟩

/-- C3 at `emptyCluster`, whose spec sets nothing. -/
theorem RayCluster.Default_documented_defaults_witness :
    emptyCluster.Default.Spec.Port = 6379 ∧
    emptyCluster.Default.Spec.RedisShardPorts = some [6380, 6381] ∧
    emptyCluster.Default.Spec.ClientServerPort = 10001 ∧
    emptyCluster.Default.Spec.ObjectManagerPort = 2384 ∧
    emptyCluster.Default.Spec.NodeManagerPort = 2385 ∧
    emptyCluster.Default.Spec.GCSServerPort = 2386 ∧
    emptyCluster.Default.Spec.DashboardPort = 8265 ∧
    emptyCluster.Default.Spec.EnableDashboard = some true ∧
    emptyCluster.Default.Spec.NetworkPolicy.Enabled = some true ∧
    emptyCluster.Default.Spec.NetworkPolicy.ClientServerLabels = some [("ray-client", "true")] ∧
    emptyCluster.Default.Spec.NetworkPolicy.DashboardLabels = some [("ray-client", "true")] ∧
    emptyCluster.Default.Spec.Worker.Replicas = some 1 ∧
    (∃ image, emptyCluster.Default.Spec.Image = some image ∧
      image.Repository = "rayproject/ray" ∧ image.Tag = "1.3.0-cpu") :=
  RayCluster.Default_documented_defaults emptyCluster rfl rfl rfl rfl rfl rfl rfl rfl rfl rfl rfl
    rfl rfl

/-! ## Validation: helper lemmas -/

/-- A loop that appends the error of each element, if any, collects the errors in order. -/
theorem foldl_appendIfErr {α : Type} (f : α → Option field.Error) (xs : List α)
    (acc : List field.Error) :
    xs.foldl (fun errs x => appendIfErr errs (f x)) acc = acc ++ xs.filterMap f := by
  induction xs generalizing acc with
  | nil => simp
  | cons x xs ih =>
    rw [List.foldl_cons, ih]
    cases h : f x <;> simp [appendIfErr, List.filterMap_cons, h]

/-- Appending the error of a rule, if any, appends the entries of the rule. -/
theorem appendIfErr_eq (errs : List field.Error) (e : Option field.Error) :
    appendIfErr errs e = errs ++ entriesOf e := by
  cases e <;> simp [appendIfErr, entriesOf]

/-- Appending a non-nil list of errors, or nothing for the nil list, is plain concatenation. -/
theorem appendIfErrs_eq (allErrs errs : List field.Error) :
    appendIfErrs allErrs errs = allErrs ++ errs := by
  unfold appendIfErrs
  split_ifs with h
  · rfl
  · simp only [ne_eq, not_not] at h
    simp [h]

/-- Filtering a list through a rule, head first. -/
theorem filterMap_cons_entriesOf {α : Type} (f : α → Option field.Error) (x : α) (xs : List α) :
    (x :: xs).filterMap f = entriesOf (f x) ++ xs.filterMap f := by
  cases h : f x <;> simp [entriesOf, List.filterMap_cons, h]

/-- The field path of a child of `spec`. -/
theorem spec_child_String (name : String) :
    ((field.NewPath "spec").Child name).String = "spec." ++ name := by
  simp [field.NewPath, field.Path.Child, field.Path.String, String.intercalate,
    String.intercalate.go]

/-- One call of `validatePort` on a child of `spec` is the entry the specification asks for. -/
theorem RayCluster.validatePort_eq (r : RayCluster) (port : Int) (name : String) :
    r.validatePort port ((field.NewPath "spec").Child name) =
      portEntry ("spec." ++ name) port := by
  have h1 : ("must be greater than or equal to " ++ toString rayMinValidPort) =
      "must be greater than or equal to 1024" := by decide
  have h2 : ("must be less than or equal to " ++ toString rayMaxValidPort) =
      "must be less than or equal to 65535" := by decide
  simp only [RayCluster.validatePort, portEntry, field.Invalid, spec_child_String, h1, h2]
  simp only [rayMinValidPort, rayMaxValidPort, gt_iff_lt]

/-- The list `validatePorts` returns: the entries of the declared ports, in order. -/
theorem RayCluster.validatePorts_eq (r : RayCluster) :
    r.validatePorts = (declaredPorts r).filterMap (fun d => portEntry d.1 d.2) := by
  have hs : ∀ t : String, "spec." ++ ("redisShardPorts[" ++ t ++ "]") =
      "spec.redisShardPorts[" ++ t ++ "]" := by
    intro t
    rw [← String.append_assoc, ← String.append_assoc]
    rfl
  have hw : ∀ t : String, "spec." ++ ("workerPorts[" ++ t ++ "]") =
      "spec.workerPorts[" ++ t ++ "]" := by
    intro t
    rw [← String.append_assoc, ← String.append_assoc]
    rfl
  have e1 : "spec." ++ "port" = "spec.port" := by decide
  have e2 : "spec." ++ "clientServerPort" = "spec.clientServerPort" := by decide
  have e3 : "spec." ++ "objectManagerPort" = "spec.objectManagerPort" := by decide
  have e4 : "spec." ++ "nodeManagerPort" = "spec.nodeManagerPort" := by decide
  have e5 : "spec." ++ "gcsServerPort" = "spec.gcsServerPort" := by decide
  have e6 : "spec." ++ "dashboardPort" = "spec.dashboardPort" := by decide
  simp only [RayCluster.validatePorts, RayCluster.validatePort_eq, foldl_appendIfErr, hs, hw]
  simp only [appendIfErr_eq, declaredPorts, List.filterMap_append, List.filterMap_map,
    List.nil_append, filterMap_cons_entriesOf, List.filterMap_nil, List.append_nil,
    List.append_assoc, e1, e2, e3, e4, e5, e6]
  rfl

/-- A port inside the valid range has no entry. -/
theorem portEntry_eq_none (fieldPath : String) (port : Int) (h : 1024 ≤ port ∧ port ≤ 65535) :
    portEntry fieldPath port = none := by
  unfold portEntry
  rw [if_neg (by omega), if_neg (by omega)]

/-- A slice whose ports are all inside the valid range contributes no entry, whatever the
field paths. -/
theorem filterMap_rangeSlice_eq_nil (xs : Option (List Int)) (name : Nat → String)
    (h : ∀ p ∈ xs.getD [], 1024 ≤ p ∧ p ≤ 65535) :
    (rangeSlice xs).filterMap (fun ip => portEntry (name ip.1) ip.2) = [] := by
  rw [List.filterMap_eq_nil_iff]
  intro ip hip
  exact portEntry_eq_none _ _ (h ip.2 (List.snd_mem_of_mem_enum hip))

/-- The outcome of `validateRayCluster` in terms of the seven rules: a panic of the image rule
is passed on, otherwise the entries of the rules are concatenated in source order and the
error is nil exactly for the empty concatenation. -/
theorem RayCluster.validateRayCluster_eq (modeValue : List (String × Int)) (r : RayCluster) :
    r.validateRayCluster modeValue =
      match r.validateImage with
      | .error p => .error p
      | .ok imageErrs =>
        if entriesOf (r.validateMutualTLSMode modeValue) ++ entriesOf r.validateWorkerReplicas
            ++ entriesOf r.validateWorkerResourceRequestsCPU
            ++ entriesOf r.validateObjectStoreMemoryBytes ++ r.validatePorts
            ++ r.validateAutoscaler ++ imageErrs = [] then .ok none
        else .ok (some (NewInvalid { Group := GroupVersionGroup, Kind := "RayCluster" } r.Name
          (entriesOf (r.validateMutualTLSMode modeValue) ++ entriesOf r.validateWorkerReplicas
            ++ entriesOf r.validateWorkerResourceRequestsCPU
            ++ entriesOf r.validateObjectStoreMemoryBytes ++ r.validatePorts
            ++ r.validateAutoscaler ++ imageErrs))) := by
  unfold RayCluster.validateRayCluster
  cases r.validateImage with
  | error p => rfl
  | ok imageErrs =>
    simp only [appendIfErr_eq, appendIfErrs_eq, List.nil_append, List.length_eq_zero]

/-! ## Validation: the claims -/

/-- C4: for every RayCluster whose ports, shard ports, worker replicas and image are unset and
which declares no worker ports, no mutual-TLS mode, no object-store memory size and no
autoscaling, validation of the defaulted cluster returns the nil error: the report is empty
and the spec is accepted. -/
theorem RayCluster.validate_Default_accepts (modeValue : List (String × Int)) (r : RayCluster)
    (hPort : r.Spec.Port = 0) (hClient : r.Spec.ClientServerPort = 0)
    (hObject : r.Spec.ObjectManagerPort = 0) (hNode : r.Spec.NodeManagerPort = 0)
    (hGCS : r.Spec.GCSServerPort = 0) (hDash : r.Spec.DashboardPort = 0)
    (hShard : r.Spec.RedisShardPorts = none) (hReplicas : r.Spec.Worker.Replicas = none)
    (hImage : r.Spec.Image = none) (hWorkerPorts : r.Spec.WorkerPorts.getD [] = [])
    (hMode : r.Spec.MutualTLSMode = "") (hMem : r.Spec.ObjectStoreMemoryBytes = none)
    (hAuto : r.Spec.Autoscaling = none) :
    r.Default.validateRayCluster modeValue = .ok none := by
  rw [RayCluster.Default_eq r]
  simp only [hPort, hClient, hObject, hNode, hGCS, hDash, hShard, hReplicas, hImage, hMode, hMem,
    hAuto, if_true]
  simp [RayCluster.validateRayCluster, RayCluster.validateMutualTLSMode, hMode,
    RayCluster.validateWorkerReplicas, rayDefaultWorkerReplicas,
    RayCluster.validateWorkerResourceRequestsCPU, RayCluster.validateObjectStoreMemoryBytes,
    RayCluster.validatePorts, RayCluster.validatePort, rangeSlice, hWorkerPorts,
    RayCluster.validateAutoscaler, RayCluster.validateImage, rayDefaultImage, appendIfErr,
    appendIfErrs, rayDefaultRedisPort, rayDefaultRedisShardPorts, rayDefaultClientServerPort,
    rayDefaultObjectManagerPort, rayDefaultNodeManagerPort, rayDefaultGCSServerPort,
    rayDefaultDashboardPort, rayMinValidPort, rayMaxValidPort, List.enum, List.enumFrom]

/-- C4 at `emptyCluster`: the cluster that sets nothing is accepted once defaulted. -/
theorem RayCluster.validate_Default_accepts_witness :
    emptyCluster.Default.validateRayCluster sampleModeValue = .ok none :=
  RayCluster.validate_Default_accepts sampleModeValue emptyCluster rfl rfl rfl rfl rfl rfl rfl rfl
    rfl rfl rfl rfl rfl

/-- C5: for every RayCluster, `validatePorts` returns exactly the entries of the declared
ports, in the order port, redis shard ports, worker ports, client-server, object-manager,
node-manager, GCS-server, dashboard: none for a port inside `[1024, 65535]`, and for a port
outside it one invalid-value entry at that port's field path, with the port as bad value and
the reason for the side of the range that is missed. In particular, when the port is 80 and
every other declared port is in range, the result is the single entry at `spec.port`. -/
theorem RayCluster.validatePorts_reports_declared_ports (r : RayCluster) :
    r.validatePorts = (declaredPorts r).filterMap (fun d => portEntry d.1 d.2) ∧
    (r.Spec.Port = 80 →
      (∀ p ∈ r.Spec.RedisShardPorts.getD [], 1024 ≤ p ∧ p ≤ 65535) →
      (∀ p ∈ r.Spec.WorkerPorts.getD [], 1024 ≤ p ∧ p ≤ 65535) →
      (1024 ≤ r.Spec.ClientServerPort ∧ r.Spec.ClientServerPort ≤ 65535) →
      (1024 ≤ r.Spec.ObjectManagerPort ∧ r.Spec.ObjectManagerPort ≤ 65535) →
      (1024 ≤ r.Spec.NodeManagerPort ∧ r.Spec.NodeManagerPort ≤ 65535) →
      (1024 ≤ r.Spec.GCSServerPort ∧ r.Spec.GCSServerPort ≤ 65535) →
      (1024 ≤ r.Spec.DashboardPort ∧ r.Spec.DashboardPort ≤ 65535) →
      r.validatePorts =
        [{ Type_ := .ErrorTypeInvalid, Field := "spec.port", BadValue := .int 80,
           Detail := "must be greater than or equal to 1024" }]) := by
  refine ⟨RayCluster.validatePorts_eq r, ?_⟩
  intro hPort hShard hWorker hClient hObject hNode hGCS hDash
  rw [RayCluster.validatePorts_eq r]
  have h1 : (rangeSlice r.Spec.RedisShardPorts).filterMap
      (fun ip => portEntry ("spec.redisShardPorts[" ++ toString ip.1 ++ "]") ip.2) = [] :=
    filterMap_rangeSlice_eq_nil _ (fun i => "spec.redisShardPorts[" ++ toString i ++ "]") hShard
  have h2 : (rangeSlice r.Spec.WorkerPorts).filterMap
      (fun ip => portEntry ("spec.workerPorts[" ++ toString ip.1 ++ "]") ip.2) = [] :=
    filterMap_rangeSlice_eq_nil _ (fun i => "spec.workerPorts[" ++ toString i ++ "]") hWorker
  simp only [declaredPorts, List.filterMap_append, List.filterMap_map, Function.comp_def,
    filterMap_cons_entriesOf, List.filterMap_nil, List.append_nil, h1, h2,
    portEntry_eq_none _ _ hClient, portEntry_eq_none _ _ hObject, portEntry_eq_none _ _ hNode,
    portEntry_eq_none _ _ hGCS, portEntry_eq_none _ _ hDash, hPort]
  rfl

/-- C5 at `port80Cluster`, whose only port out of range is the primary port 80: the result is
the single entry at `spec.port`. -/
theorem RayCluster.validatePorts_reports_declared_ports_witness :
    port80Cluster.validatePorts =
      [{ Type_ := .ErrorTypeInvalid, Field := "spec.port", BadValue := .int 80,
         Detail := "must be greater than or equal to 1024" }] :=
  (RayCluster.validatePorts_reports_declared_ports port80Cluster).2 rfl (by decide) (by decide)
    (by decide) (by decide) (by decide) (by decide) (by decide)

/-- A returned validation outcome carries the concatenation of the entries of the seven rules,
in source order. -/
theorem RayCluster.reportOf_validateRayCluster (modeValue : List (String × Int)) (r : RayCluster)
    (res : Option StatusError) (h : r.validateRayCluster modeValue = .ok res) :
    ∃ imageErrs, r.validateImage = .ok imageErrs ∧
      reportOf res =
        entriesOf (r.validateMutualTLSMode modeValue) ++ entriesOf r.validateWorkerReplicas
          ++ entriesOf r.validateWorkerResourceRequestsCPU
          ++ entriesOf r.validateObjectStoreMemoryBytes ++ r.validatePorts
          ++ r.validateAutoscaler ++ imageErrs := by
  rw [RayCluster.validateRayCluster_eq] at h
  cases hI : r.validateImage with
  | error p =>
    rw [hI] at h
    cases h
  | ok imageErrs =>
    rw [hI] at h
    refine ⟨imageErrs, rfl, ?_⟩
    simp only at h
    split_ifs at h with hnil
    · injection h with h
      subst h
      simp only [reportOf, hnil]
    · injection h with h
      subst h
      simp only [reportOf, NewInvalid]

/-- The evidence against C6 as stated: `emptyCluster` has no image, `validateImage` reads
`Image.Repository` through the nil pointer, and `validateRayCluster` ends in a panic: it
returns neither the nil error nor a report. -/
theorem RayCluster.validateRayCluster_no_report_of_nil_image :
    emptyCluster.Spec.Image = none ∧
    emptyCluster.validateRayCluster sampleModeValue = .error .nilPointerDereference ∧
    ¬ ∃ res, emptyCluster.validateRayCluster sampleModeValue = .ok res := by
  have h : emptyCluster.validateRayCluster sampleModeValue = .error .nilPointerDereference :=
    rfl
  refine ⟨rfl, h, ?_⟩
  rintro ⟨res, hres⟩
  rw [h] at hres
  cases hres

/-- C6, amended: for every RayCluster whose image is set, `validateRayCluster` returns, and its
report is the concatenation, in this order, of the entries of the seven rules (mutual-TLS mode,
worker replicas, worker cpu request, object-store memory, ports, autoscaler, image); the number
of entries is the sum over the rules, and the nil error is returned exactly when every rule
returns no entry. -/
theorem RayCluster.validateRayCluster_aggregates (modeValue : List (String × Int))
    (r : RayCluster) (image : OCIImageDefinition) (hImage : r.Spec.Image = some image) :
    ∃ imageErrs res,
      r.validateImage = .ok imageErrs ∧
      r.validateRayCluster modeValue = .ok res ∧
      reportOf res =
        entriesOf (r.validateMutualTLSMode modeValue) ++ entriesOf r.validateWorkerReplicas
          ++ entriesOf r.validateWorkerResourceRequestsCPU
          ++ entriesOf r.validateObjectStoreMemoryBytes ++ r.validatePorts
          ++ r.validateAutoscaler ++ imageErrs ∧
      (reportOf res).length =
        (entriesOf (r.validateMutualTLSMode modeValue)).length
          + (entriesOf r.validateWorkerReplicas).length
          + (entriesOf r.validateWorkerResourceRequestsCPU).length
          + (entriesOf r.validateObjectStoreMemoryBytes).length + r.validatePorts.length
          + r.validateAutoscaler.length + imageErrs.length ∧
      (res = none ↔
        r.validateMutualTLSMode modeValue = none ∧ r.validateWorkerReplicas = none ∧
        r.validateWorkerResourceRequestsCPU = none ∧ r.validateObjectStoreMemoryBytes = none ∧
        r.validatePorts = [] ∧ r.validateAutoscaler = [] ∧ imageErrs = []) := by
  have hok : ∃ imageErrs, r.validateImage = .ok imageErrs := by
    simp [RayCluster.validateImage, hImage]
  obtain ⟨imageErrs, hI⟩ := hok
  have hE : ∀ e : Option field.Error, entriesOf e = [] ↔ e = none := by
    intro e
    cases e <;> simp [entriesOf]
  rw [RayCluster.validateRayCluster_eq, hI]
  simp only
  split_ifs with h
  · refine ⟨imageErrs, none, rfl, rfl, ?_, ?_, ?_⟩
    · simp only [reportOf, h]
    · simp only [reportOf, ← List.length_append, h]
    · simpa only [List.append_eq_nil, hE, and_assoc, true_iff] using h
  · refine ⟨imageErrs, some _, rfl, rfl, ?_, ?_, ?_⟩
    · simp only [reportOf, NewInvalid]
    · simp only [reportOf, NewInvalid, List.length_append]
    · simpa only [List.append_eq_nil, hE, and_assoc, false_iff, reduceCtorEq] using h

/-- C6, amended, at `manyErrorsCluster`, whose image is set and which breaks four rules:
validation returns, and the report has one entry of each broken rule, in rule order. -/
theorem RayCluster.validateRayCluster_aggregates_witness :
    (∃ imageErrs res,
      manyErrorsCluster.validateImage = .ok imageErrs ∧
      manyErrorsCluster.validateRayCluster sampleModeValue = .ok res ∧
      reportOf res =
        entriesOf (manyErrorsCluster.validateMutualTLSMode sampleModeValue)
          ++ entriesOf manyErrorsCluster.validateWorkerReplicas
          ++ entriesOf manyErrorsCluster.validateWorkerResourceRequestsCPU
          ++ entriesOf manyErrorsCluster.validateObjectStoreMemoryBytes
          ++ manyErrorsCluster.validatePorts ++ manyErrorsCluster.validateAutoscaler
          ++ imageErrs ∧
      (reportOf res).length =
        (entriesOf (manyErrorsCluster.validateMutualTLSMode sampleModeValue)).length
          + (entriesOf manyErrorsCluster.validateWorkerReplicas).length
          + (entriesOf manyErrorsCluster.validateWorkerResourceRequestsCPU).length
          + (entriesOf manyErrorsCluster.validateObjectStoreMemoryBytes).length
          + manyErrorsCluster.validatePorts.length + manyErrorsCluster.validateAutoscaler.length
          + imageErrs.length ∧
      (res = none ↔
        manyErrorsCluster.validateMutualTLSMode sampleModeValue = none ∧
        manyErrorsCluster.validateWorkerReplicas = none ∧
        manyErrorsCluster.validateWorkerResourceRequestsCPU = none ∧
        manyErrorsCluster.validateObjectStoreMemoryBytes = none ∧
        manyErrorsCluster.validatePorts = [] ∧ manyErrorsCluster.validateAutoscaler = [] ∧
        imageErrs = [])) ∧
    (entriesOf manyErrorsCluster.validateWorkerReplicas).length = 1 ∧
    manyErrorsCluster.validatePorts.length = 1 ∧
    manyErrorsCluster.validateAutoscaler.length = 1 :=
  ⟨RayCluster.validateRayCluster_aggregates sampleModeValue manyErrorsCluster
      { Repository := "custom/ray", Tag := "", PullPolicy := "" } rfl,
    by decide, by decide, by decide⟩

/-- C7: for every RayCluster, `validateAutoscaler` returns no entry if and only if autoscaling
is absent or the policy is valid: max replicas at least 1, min replicas (if set) between 1 and
max replicas, utilization target (if set) positive, stabilization window (if set) not
negative. -/
theorem RayCluster.validateAutoscaler_eq_nil_iff (r : RayCluster) :
    r.validateAutoscaler = [] ↔
      r.Spec.Autoscaling = none ∨ ∃ a, r.Spec.Autoscaling = some a ∧ validPolicy a := by
  unfold RayCluster.validateAutoscaler validPolicy
  cases hA : r.Spec.Autoscaling with
  | none => simp
  | some a =>
    obtain ⟨minR, maxR, util, window⟩ := a
    cases minR <;> cases util <;> cases window <;>
      simp only [Option.mem_def, Option.some.injEq, forall_eq', reduceCtorEq, false_or,
        exists_eq_left', IsEmpty.forall_iff, implies_true, true_and, and_true] <;>
      split_ifs <;> simp <;> omega

/-- The min-above-max entry is in the list of `validateAutoscaler` exactly when min replicas is
set and exceeds max replicas. -/
theorem RayCluster.mem_validateAutoscaler_minAboveMax (r : RayCluster) (a : Autoscaling)
    (hA : r.Spec.Autoscaling = some a) :
    minAboveMaxEntry a.MaxReplicas ∈ r.validateAutoscaler ↔
      ∃ m, a.MinReplicas = some m ∧ a.MaxReplicas < m := by
  have p1 : (((field.NewPath "spec").Child "autoscaling").Child "minReplicas").String =
      "spec.autoscaling.minReplicas" := by decide
  have p2 : (((field.NewPath "spec").Child "autoscaling").Child "maxReplicas").String =
      "spec.autoscaling.maxReplicas" := by decide
  have p3 : (((field.NewPath "spec").Child "autoscaling").Child "averageUtilization").String =
      "spec.autoscaling.averageUtilization" := by decide
  have p4 : (((field.NewPath "spec").Child "autoscaling").Child
      "scaleDownStabilizationWindowSeconds").String =
      "spec.autoscaling.scaleDownStabilizationWindowSeconds" := by decide
  unfold RayCluster.validateAutoscaler
  rw [hA]
  obtain ⟨minR, maxR, util, window⟩ := a
  cases minR <;> cases util <;> cases window <;>
    simp only [minAboveMaxEntry, field.Invalid, p1, p2, p3, p4, gt_iff_lt] <;>
    split_ifs <;>
    simp [*]

/-- No rule other than the autoscaler rule reports the min-above-max entry. -/
theorem RayCluster.minAboveMax_not_mem_other_rules (modeValue : List (String × Int))
    (r : RayCluster) (maxReplicas : Int) :
    minAboveMaxEntry maxReplicas ∉ entriesOf (r.validateMutualTLSMode modeValue) ∧
    minAboveMaxEntry maxReplicas ∉ entriesOf r.validateWorkerReplicas ∧
    minAboveMaxEntry maxReplicas ∉ entriesOf r.validateWorkerResourceRequestsCPU ∧
    minAboveMaxEntry maxReplicas ∉ entriesOf r.validateObjectStoreMemoryBytes ∧
    minAboveMaxEntry maxReplicas ∉ r.validatePorts ∧
    (∀ imageErrs, r.validateImage = .ok imageErrs →
      minAboveMaxEntry maxReplicas ∉ imageErrs) := by
  refine ⟨?_, ?_, ?_, ?_, ?_, ?_⟩
  · unfold RayCluster.validateMutualTLSMode
    split_ifs <;> simp [entriesOf, minAboveMaxEntry, field.Invalid, spec_child_String]
  · unfold RayCluster.validateWorkerReplicas
    split <;> [skip; split_ifs] <;> simp [entriesOf, minAboveMaxEntry, field.Invalid]
  · unfold RayCluster.validateWorkerResourceRequestsCPU
    split_ifs <;> simp [entriesOf, minAboveMaxEntry, field.Required]
  · unfold RayCluster.validateObjectStoreMemoryBytes
    split <;> [skip; split_ifs] <;> simp [entriesOf, minAboveMaxEntry, field.Invalid]
  · rw [RayCluster.validatePorts_eq, List.mem_filterMap]
    rintro ⟨d, -, hd⟩
    unfold portEntry at hd
    split_ifs at hd <;> simp [minAboveMaxEntry] at hd
  · intro imageErrs h
    unfold RayCluster.validateImage at h
    split at h
    · cases h
    · injection h with h
      subst h
      split_ifs <;> simp [minAboveMaxEntry, field.Required]

/-- With an image set, `validateRayCluster` returns an outcome. -/
theorem RayCluster.validateRayCluster_returns (modeValue : List (String × Int)) (r : RayCluster)
    (image : OCIImageDefinition) (hImage : r.Spec.Image = some image) :
    ∃ res, r.validateRayCluster modeValue = .ok res := by
  have hok : ∃ imageErrs, r.validateImage = .ok imageErrs := by
    simp [RayCluster.validateImage, hImage]
  obtain ⟨imageErrs, hI⟩ := hok
  rw [RayCluster.validateRayCluster_eq, hI]
  simp only
  split_ifs
  · exact ⟨none, rfl⟩
  · exact ⟨some _, rfl⟩

/-- The evidence against C8 as stated: `minAboveMaxNoImageCluster` has autoscaling present with
min replicas 5 above max replicas 3 and no image. The autoscaler rule produces the entry, but
`validateImage` then reads through the nil image and `validateRayCluster` ends in a panic:
there is no report that could contain the entry. -/
theorem RayCluster.minAboveMax_no_report_of_nil_image :
    minAboveMaxNoImageCluster.Spec.Autoscaling =
      some { MinReplicas := some 5, MaxReplicas := 3, AverageCPUUtilization := none,
             ScaleDownStabilizationWindowSeconds := none } ∧
    minAboveMaxNoImageCluster.Spec.Image = none ∧
    minAboveMaxEntry 3 ∈ minAboveMaxNoImageCluster.validateAutoscaler ∧
    minAboveMaxNoImageCluster.validateRayCluster sampleModeValue =
      .error .nilPointerDereference ∧
    ¬ ∃ res, minAboveMaxNoImageCluster.validateRayCluster sampleModeValue = .ok res ∧
      minAboveMaxEntry 3 ∈ reportOf res := by
  have h : minAboveMaxNoImageCluster.validateRayCluster sampleModeValue =
      .error .nilPointerDereference := rfl
  refine ⟨rfl, rfl, by decide, h, ?_⟩
  rintro ⟨res, hres, -⟩
  rw [h] at hres
  cases hres

/-- C8, amended: for every RayCluster with autoscaling present and an image set, validation
returns a report, and the report contains the entry at `spec.autoscaling.maxReplicas` with the
max replicas value and the reason "cannot be less than spec.autoscaling.minReplicas" exactly
when min replicas is set and exceeds max replicas; the list of `validateAutoscaler` contains
that entry under the same condition, whether or not an image is set. -/
theorem RayCluster.minAboveMax_reported_iff (modeValue : List (String × Int)) (r : RayCluster)
    (a : Autoscaling) (hA : r.Spec.Autoscaling = some a) :
    (minAboveMaxEntry a.MaxReplicas ∈ r.validateAutoscaler ↔
      ∃ m, a.MinReplicas = some m ∧ a.MaxReplicas < m) ∧
    (∀ image, r.Spec.Image = some image →
      ∃ res, r.validateRayCluster modeValue = .ok res ∧
        (minAboveMaxEntry a.MaxReplicas ∈ reportOf res ↔
          ∃ m, a.MinReplicas = some m ∧ a.MaxReplicas < m)) := by
  refine ⟨RayCluster.mem_validateAutoscaler_minAboveMax r a hA, ?_⟩
  intro image hImage
  obtain ⟨res, hres⟩ := RayCluster.validateRayCluster_returns modeValue r image hImage
  refine ⟨res, hres, ?_⟩
  obtain ⟨imageErrs, hI, hrep⟩ := RayCluster.reportOf_validateRayCluster modeValue r res hres
  obtain ⟨h1, h2, h3, h4, h5, h6⟩ :=
    RayCluster.minAboveMax_not_mem_other_rules modeValue r a.MaxReplicas
  rw [hrep, ← RayCluster.mem_validateAutoscaler_minAboveMax r a hA]
  simp only [List.mem_append, h1, h2, h3, h4, h5, h6 imageErrs hI, false_or, or_false]

/-- C8, amended, at `minAboveMaxCluster` (min replicas 5, max replicas 3, image set): validation
returns a report and the entry is in it. -/
theorem RayCluster.minAboveMax_reported_iff_witness :
    ∃ res, minAboveMaxCluster.validateRayCluster sampleModeValue = .ok res ∧
      minAboveMaxEntry 3 ∈ reportOf res := by
  obtain ⟨res, hres, hiff⟩ :=
    (RayCluster.minAboveMax_reported_iff sampleModeValue minAboveMaxCluster
      { MinReplicas := some 5, MaxReplicas := 3, AverageCPUUtilization := none,
        ScaleDownStabilizationWindowSeconds := none } rfl).2
      { Repository := "custom/ray", Tag := "2.0.0", PullPolicy := "" } rfl
  exact ⟨res, hres, hiff.mpr ⟨5, rfl, by decide⟩⟩

/-- C9: for every RayCluster, `validateWorkerResourceRequestsCPU` returns the required-field
entry at `spec.worker.resources.requests.cpu` if and only if autoscaling is present and the
worker's resource requests have no cpu entry; it returns nothing if and only if autoscaling is
absent or a cpu request is declared. -/
theorem RayCluster.validateWorkerResourceRequestsCPU_iff (r : RayCluster) :
    (r.validateWorkerResourceRequestsCPU = some cpuRequiredEntry ↔
      r.Spec.Autoscaling ≠ none ∧ ∀ q, ("cpu", q) ∉ r.Spec.Worker.Resources.Requests) ∧
    (r.validateWorkerResourceRequestsCPU = none ↔
      r.Spec.Autoscaling = none ∨ ∃ q, ("cpu", q) ∈ r.Spec.Worker.Resources.Requests) := by
  have hp : (((((field.NewPath "spec").Child "worker").Child "resources").Child
      "requests").Child "cpu").String = "spec.worker.resources.requests.cpu" := by decide
  have hl : (r.Spec.Worker.Resources.Requests.lookup ResourceCPU).isSome ↔
      ∃ q, ("cpu", q) ∈ r.Spec.Worker.Resources.Requests := by
    rw [List.lookup_isSome_iff]
    constructor
    · rintro ⟨⟨k, q⟩, hmem, hk⟩
      have hk' : ResourceCPU = k := by simpa using hk
      subst hk'
      exact ⟨q, hmem⟩
    · rintro ⟨q, hmem⟩
      exact ⟨("cpu", q), hmem, by simp [ResourceCPU]⟩
  unfold RayCluster.validateWorkerResourceRequestsCPU
  simp only [field.Required, hp, cpuRequiredEntry]
  split_ifs with h1 h2
  · simp [h1]
  · have h2' := hl.mp h2
    simp only [reduceCtorEq, ne_eq, h1, not_false_eq_true, true_and, false_iff, not_forall,
      not_not, false_or, true_iff]
    exact ⟨h2', h2'⟩
  · have h2' : ¬ ∃ q, ("cpu", q) ∈ r.Spec.Worker.Resources.Requests := fun h => h2 (hl.mpr h)
    simp only [ne_eq, h1, not_false_eq_true, true_and, true_iff, reduceCtorEq, false_or,
      false_iff]
    exact ⟨fun q hq => h2' ⟨q, hq⟩, h2'⟩

end v1alpha1

/-! ## Naming -/

namespace metadata

/-- C10: for every provider (application name), object and component, `InstanceName` is
`<name>-<application>` when the component is the sentinel `none` and
`<name>-<application>-<component>` otherwise; `spark.InstanceObjectName` is the same with the
application fixed to `spark`. -/
theorem Provider.InstanceName_format (p : Provider) (obj : Object) (comp : Component) :
    (comp = "none" → p.InstanceName obj comp = obj.Name ++ "-" ++ p.application) ∧
    (comp ≠ "none" →
      p.InstanceName obj comp = obj.Name ++ "-" ++ p.application ++ "-" ++ comp) ∧
    (comp = "none" → spark.InstanceObjectName obj.Name comp = obj.Name ++ "-spark") ∧
    (comp ≠ "none" → spark.InstanceObjectName obj.Name comp = obj.Name ++ "-spark-" ++ comp) ∧
    spark.InstanceObjectName obj.Name comp =
      (NewProvider "spark" p.version).InstanceName obj comp := by
  refine ⟨?_, ?_, ?_, ?_, ?_⟩
  · intro h
    simp [Provider.InstanceName, ComponentNone, Object.GetName, h]
  · intro h
    simp [Provider.InstanceName, ComponentNone, Object.GetName, h]
  · intro h
    simp [spark.InstanceObjectName, spark.ComponentNone, spark.ApplicationName, h,
      String.append_assoc]
  · intro h
    simp only [spark.InstanceObjectName, spark.ComponentNone, spark.ApplicationName, h,
      if_false, String.append_assoc]
    rfl
  · rfl

/-- C10 at the object `test`, the application `ray` and the components `none` and `head`. -/
theorem Provider.InstanceName_format_witness :
    (NewProvider "ray" (fun _ => "1.3.0")).InstanceName ⟨"test", "default"⟩ "none" = "test-ray" ∧
    (NewProvider "ray" (fun _ => "1.3.0")).InstanceName ⟨"test", "default"⟩ "head"
      = "test-ray-head" ∧
    spark.InstanceObjectName "test" "none" = "test-spark" ∧
    spark.InstanceObjectName "test" "master" = "test-spark-master" :=
  ⟨(Provider.InstanceName_format (NewProvider "ray" (fun _ => "1.3.0")) ⟨"test", "default"⟩
      "none").1 rfl,
    (Provider.InstanceName_format (NewProvider "ray" (fun _ => "1.3.0")) ⟨"test", "default"⟩
      "head").2.1 (by decide),
    (Provider.InstanceName_format (NewProvider "ray" (fun _ => "1.3.0")) ⟨"test", "default"⟩
      "none").2.2.1 rfl,
    (Provider.InstanceName_format (NewProvider "ray" (fun _ => "1.3.0")) ⟨"test", "default"⟩
      "master").2.2.2.1 (by decide)⟩

end metadata

/-! ## Naming: distinct names -/

namespace metadata

/-- Texts that agree after a common beginning agree. -/
theorem append_left_cancel_string (a b c : String) (h : a ++ b = a ++ c) : b = c := by
  apply String.ext
  have h' := congrArg String.data h
  simpa using h'

/-- A text is not itself followed by a dash and more. -/
theorem ne_append_dash (a c : String) : a ≠ a ++ "-" ++ c := by
  intro h
  have h' := congrArg String.data h
  simp only [String.data_append, List.append_assoc, List.self_eq_append_right,
    List.append_eq_nil] at h'
  exact absurd h'.1 (by decide)

/-- C11: for every provider, every object and every two distinct components (the sentinel
`none` included), the instance names of the object for the two components differ. -/
theorem Provider.InstanceName_ne_of_component_ne (p : Provider) (obj : Object)
    (c1 c2 : Component) (hne : c1 ≠ c2) : p.InstanceName obj c1 ≠ p.InstanceName obj c2 := by
  intro h
  unfold Provider.InstanceName at h
  split_ifs at h with h1 h2 h2
  · exact hne (h1.trans h2.symm)
  · exact ne_append_dash _ _ h
  · exact ne_append_dash _ _ h.symm
  · exact hne (append_left_cancel_string _ _ _ h)

/-- C11 at the object `test` of the application `dask`: the name for the sentinel and the name
for the worker component differ, and so do the names for scheduler and worker. -/
theorem Provider.InstanceName_ne_of_component_ne_witness :
    (NewProvider "dask" (fun _ => "1")).InstanceName ⟨"test", "default"⟩ "none" ≠
      (NewProvider "dask" (fun _ => "1")).InstanceName ⟨"test", "default"⟩ "worker" ∧
    (NewProvider "dask" (fun _ => "1")).InstanceName ⟨"test", "default"⟩ "scheduler" ≠
      (NewProvider "dask" (fun _ => "1")).InstanceName ⟨"test", "default"⟩ "worker" :=
  ⟨Provider.InstanceName_ne_of_component_ne _ _ "none" "worker" (by decide),
    Provider.InstanceName_ne_of_component_ne _ _ "scheduler" "worker" (by decide)⟩

/-- Splitting at the last dash: when the parts after the dash contain no dash, equal texts have
equal parts before and after it. -/
theorem split_last_dash (s1 s2 t1 t2 : List Char) (h1 : '-' ∉ t1) (h2 : '-' ∉ t2)
    (h : s1 ++ '-' :: t1 = s2 ++ '-' :: t2) : s1 = s2 ∧ t1 = t2 := by
  induction s1 generalizing s2 with
  | nil =>
    cases s2 with
    | nil => simpa using h
    | cons b s2 =>
      simp only [List.nil_append, List.cons_append, List.cons.injEq] at h
      exact absurd (h.2 ▸ (by simp : '-' ∈ s2 ++ '-' :: t2)) h1
  | cons a s1 ih =>
    cases s2 with
    | nil =>
      simp only [List.nil_append, List.cons_append, List.cons.injEq] at h
      exact absurd (h.2 ▸ (by simp : '-' ∈ s1 ++ '-' :: t1)) h2
    | cons b s2 =>
      simp only [List.cons_append, List.cons.injEq] at h
      obtain ⟨hs, ht⟩ := ih s2 h.2
      exact ⟨by rw [h.1, hs], ht⟩

/-- Splitting at the last dash, for texts. -/
theorem split_last_dash_string (s1 s2 t1 t2 : String) (h1 : dashFree t1) (h2 : dashFree t2)
    (h : s1 ++ "-" ++ t1 = s2 ++ "-" ++ t2) : s1 = s2 ∧ t1 = t2 := by
  have h' := congrArg String.data h
  simp only [String.data_append, List.append_assoc, List.singleton_append] at h'
  obtain ⟨hs, ht⟩ := split_last_dash _ _ _ _ h1 h2 h'
  exact ⟨String.ext hs, String.ext ht⟩

/-- The evidence against C12 as stated: for the application `ray`, the object `a-ray` with the
sentinel component and the object `a` with a component called `ray` both get the name
`a-ray-ray`, so equal instance names do not force equal object names and components. -/
theorem Provider.InstanceName_collision :
    (NewProvider "ray" (fun _ => "")).InstanceName ⟨"a-ray", "default"⟩ "none" = "a-ray-ray" ∧
    (NewProvider "ray" (fun _ => "")).InstanceName ⟨"a", "default"⟩ "ray" = "a-ray-ray" ∧
    ¬ ∀ (p : Provider) (o1 o2 : Object) (c1 c2 : Component),
      p.InstanceName o1 c1 = p.InstanceName o2 c2 → o1.Name = o2.Name ∧ c1 = c2 := by
  refine ⟨by decide, by decide, ?_⟩
  intro h
  have := h (NewProvider "ray" (fun _ => "")) ⟨"a-ray", "default"⟩ ⟨"a", "default"⟩
    "none" "ray" (by decide)
  exact absurd this.1 (by decide)

/-- C12, amended: for every provider whose application name contains no dash, all objects and
all components that contain no dash and are not the application name (as `none`, `head`,
`master`, `scheduler` and `worker` are for the applications of the operator), equal instance
names force equal object names and equal components. -/
theorem Provider.InstanceName_injective (p : Provider) (o1 o2 : Object) (c1 c2 : Component)
    (hApp : dashFree p.application) (h1 : dashFree c1) (h2 : dashFree c2)
    (h1a : c1 ≠ p.application) (h2a : c2 ≠ p.application)
    (h : p.InstanceName o1 c1 = p.InstanceName o2 c2) : o1.Name = o2.Name ∧ c1 = c2 := by
  unfold Provider.InstanceName Object.GetName at h
  split_ifs at h with hc1 hc2 hc2
  · exact ⟨(split_last_dash_string _ _ _ _ hApp hApp h).1, hc1.trans hc2.symm⟩
  · exact absurd (split_last_dash_string _ _ _ _ hApp h2 h).2.symm h2a
  · exact absurd (split_last_dash_string _ _ _ _ h1 hApp h).2 h1a
  · obtain ⟨hn, hc⟩ := split_last_dash_string _ _ _ _ h1 h2 h
    exact ⟨(split_last_dash_string _ _ _ _ hApp hApp hn).1, hc⟩

/-- C12, amended, for the application `dask`: with every hypothesis met by the object `test`
and the component `worker`, and, read backwards, the objects `a-dask` (sentinel component) and
`a` (component `worker`) do not share a name. -/
theorem Provider.InstanceName_injective_witness :
    (("test" : String) = "test" ∧ ("worker" : Component) = "worker") ∧
    (NewProvider "dask" (fun _ => "1")).InstanceName ⟨"a-dask", "default"⟩ "none" ≠
      (NewProvider "dask" (fun _ => "1")).InstanceName ⟨"a", "default"⟩ "worker" :=
  ⟨Provider.InstanceName_injective (NewProvider "dask" (fun _ => "1")) ⟨"test", "a"⟩
      ⟨"test", "b"⟩ "worker" "worker" (by decide) (by decide) (by decide) (by decide)
      (by decide) rfl,
    fun h => absurd
      (Provider.InstanceName_injective (NewProvider "dask" (fun _ => "1")) ⟨"a-dask", "default"⟩
        ⟨"a", "default"⟩ "none" "worker" (by decide) (by decide) (by decide) (by decide)
        (by decide) h).1 (by decide)⟩

end metadata

/-! ## Labels -/

namespace metadata

/-- Looking a key up in two joined lists: the first list wins. -/
theorem lookup_append_eq (l₁ l₂ : StringMap) (k : String) :
    (l₁ ++ l₂).lookup k = (l₁.lookup k).orElse (fun _ => l₂.lookup k) := by
  induction l₁ with
  | nil => simp
  | cons kv l ih =>
    obtain ⟨a, b⟩ := kv
    simp only [List.cons_append, List.lookup_cons]
    split <;> simp [ih]

/-- Filtering entries by a test on their key keeps the entries of the keys that pass. -/
theorem lookup_filter_key (l : StringMap) (P : String → Bool) (k : String) :
    (l.filter (fun kv => P kv.1)).lookup k = if P k then l.lookup k else none := by
  induction l with
  | nil => simp
  | cons kv l ih =>
    obtain ⟨a, b⟩ := kv
    by_cases hP : P a = true
    · simp only [List.filter_cons, hP, if_true, List.lookup_cons]
      by_cases hk : k = a
      · subst hk
        simp [hP]
      · have : (k == a) = false := by simpa using hk
        simp only [this, ih]
    · simp only [List.filter_cons, hP, Bool.false_eq_true, if_false, ih, List.lookup_cons]
      by_cases hk : k = a
      · subst hk
        simp [hP]
      · have : (k == a) = false := by simpa using hk
        simp only [this]

/-- The standard labels, with the label keys written out. -/
theorem Provider.StandardLabels_eq (p : Provider) (obj : Object) :
    p.StandardLabels obj =
      [("app.kubernetes.io/name", p.application), ("app.kubernetes.io/instance", obj.Name),
       ("app.kubernetes.io/version", p.version obj),
       ("app.kubernetes.io/managed-by", "distributed-compute-operator")] := rfl

/-- The standard labels with component, with the label keys written out. -/
theorem Provider.StandardLabelsWithComponent_eq (p : Provider) (obj : Object) (comp : Component) :
    p.StandardLabelsWithComponent obj comp =
      [("app.kubernetes.io/name", p.application), ("app.kubernetes.io/instance", obj.Name),
       ("app.kubernetes.io/version", p.version obj),
       ("app.kubernetes.io/managed-by", "distributed-compute-operator"),
       ("app.kubernetes.io/component", comp)] := by
  simp [Provider.StandardLabelsWithComponent, Provider.StandardLabels, setKey,
    ApplicationNameLabelKey, ApplicationInstanceLabelKey, ApplicationVersionLabelKey,
    ApplicationManagedByLabelKey, ApplicationManagedByLabelValue, ApplicationComponentLabelKey,
    List.lookup, Object.GetName]

/-- The match labels with component, with the label keys written out. -/
theorem Provider.MatchLabelsWithComponent_eq (p : Provider) (obj : Object) (comp : Component) :
    p.MatchLabelsWithComponent obj comp =
      [("app.kubernetes.io/name", p.application), ("app.kubernetes.io/instance", obj.Name),
       ("app.kubernetes.io/component", comp)] := by
  simp [Provider.MatchLabelsWithComponent, Provider.MatchLabels, setKey,
    ApplicationNameLabelKey, ApplicationInstanceLabelKey, ApplicationComponentLabelKey,
    List.lookup, Object.GetName]

/-- The value of a key in the standard labels with component. -/
theorem Provider.lookup_StandardLabelsWithComponent (p : Provider) (obj : Object)
    (comp : Component) (k : String) :
    (p.StandardLabelsWithComponent obj comp).lookup k =
      if k = "app.kubernetes.io/name" then some p.application
      else if k = "app.kubernetes.io/instance" then some obj.Name
      else if k = "app.kubernetes.io/version" then some (p.version obj)
      else if k = "app.kubernetes.io/managed-by" then some "distributed-compute-operator"
      else if k = "app.kubernetes.io/component" then some comp
      else none := by
  rw [Provider.StandardLabelsWithComponent_eq]
  split_ifs with h1 h2 h3 h4 h5
  · simp [List.lookup, h1]
  · simp [List.lookup, h2]
  · simp [List.lookup, h3]
  · simp [List.lookup, h4]
  · simp [List.lookup, h5]
  · have e1 : (k == "app.kubernetes.io/name") = false := by simpa using h1
    have e2 : (k == "app.kubernetes.io/instance") = false := by simpa using h2
    have e3 : (k == "app.kubernetes.io/version") = false := by simpa using h3
    have e4 : (k == "app.kubernetes.io/managed-by") = false := by simpa using h4
    have e5 : (k == "app.kubernetes.io/component") = false := by simpa using h5
    simp only [List.lookup, e1, e2, e3, e4, e5]

end metadata

/-! ## The dask data source -/

namespace dask

open v1alpha1 (OCIImageDefinition)

/-- Looking a key up in merged maps: the second map wins, the first fills the other keys. -/
theorem MergeStringMaps_lookup (src dst : metadata.StringMap) (k : String) :
    (MergeStringMaps src dst).lookup k =
      match dst.lookup k with
      | some v => some v
      | none => src.lookup k := by
  unfold MergeStringMaps
  rw [metadata.lookup_append_eq,
    metadata.lookup_filter_key src (fun key => (dst.lookup key).isNone) k]
  cases dst.lookup k <;> simp

/-- With an image that parses, `GetStatefulSet` returns a StatefulSet with one container, built
from the values of the data source methods. -/
theorem statefulSetDS.GetStatefulSet_ok (env : Env) (s : statefulSetDS)
    (image : OCIImageDefinition) (ref : String) (hImage : s.dc.Spec.Image = some image)
    (hParse : env.ParseImageDefinition (some image) = .ok ref) :
    ∃ sts container, s.GetStatefulSet env = .ok sts ∧
      sts.Spec.Template.Spec.Containers = [container] ∧
      sts.ObjectMeta.Name = s.name env ∧
      sts.ObjectMeta.Labels = s.labels env ∧
      sts.Spec.Template.ObjectMeta.Labels = s.labels env ∧
      sts.Spec.Replicas = s.replicas ∧
      sts.Spec.ServiceName = s.serviceName env ∧
      container.Args = s.commandArgs env ∧
      container.Ports = s.ports ∧
      container.Env = s.env ∧
      container.LivenessProbe = s.probe ∧
      container.ReadinessProbe = s.probe := by
  unfold statefulSetDS.GetStatefulSet statefulSetDS.image
  rw [hImage, hParse]
  exact ⟨_, _, rfl, rfl, rfl, rfl, rfl, rfl, rfl, rfl, rfl, rfl, rfl, rfl⟩

/-- The labels of a data source: the standard labels with component win, the user's labels
fill the other keys. -/
theorem statefulSetDS.lookup_labels (env : Env) (s : statefulSetDS) (k : String) :
    (s.labels env).lookup k =
      match ((env.meta s.dc).StandardLabelsWithComponent s.dc.asObject s.comp).lookup k with
      | some v => some v
      | none => s.tc.podConfig.Labels.lookup k := by
  unfold statefulSetDS.labels
  simp only [MergeStringMaps_lookup]

/-- C13: for every cluster, role and user-declared role label map, the labels of the data
source hold every standard role label (name, instance, version, managed-by, component) with its
standard value, whatever the user map says for that key, and under every other key the user's
label is kept; when the image parses the StatefulSet is synthesized and both its object metadata
and its pod template carry these labels. -/
theorem statefulSetDS.labels_standard_win (env : Env) (s : statefulSetDS) :
    (s.labels env).lookup "app.kubernetes.io/name" = some env.metaApplication ∧
    (s.labels env).lookup "app.kubernetes.io/instance" = some s.dc.Name ∧
    (s.labels env).lookup "app.kubernetes.io/version" = some (env.metaVersion s.dc) ∧
    (s.labels env).lookup "app.kubernetes.io/managed-by" = some "distributed-compute-operator" ∧
    (s.labels env).lookup "app.kubernetes.io/component" = some s.comp ∧
    (∀ k v,
      ((env.meta s.dc).StandardLabelsWithComponent s.dc.asObject s.comp).lookup k = some v →
        (s.labels env).lookup k = some v) ∧
    (∀ k, k ∉ ["app.kubernetes.io/name", "app.kubernetes.io/instance",
        "app.kubernetes.io/version", "app.kubernetes.io/managed-by",
        "app.kubernetes.io/component"] →
      (s.labels env).lookup k = s.tc.podConfig.Labels.lookup k) ∧
    (∀ image ref, s.dc.Spec.Image = some image →
      env.ParseImageDefinition (some image) = .ok ref →
      ∃ sts, s.GetStatefulSet env = .ok sts ∧ sts.ObjectMeta.Labels = s.labels env ∧
        sts.Spec.Template.ObjectMeta.Labels = s.labels env) := by
  have hstd : ∀ k v,
      ((env.meta s.dc).StandardLabelsWithComponent s.dc.asObject s.comp).lookup k = some v →
        (s.labels env).lookup k = some v := by
    intro k v hk
    rw [statefulSetDS.lookup_labels, hk]
  refine ⟨?_, ?_, ?_, ?_, ?_, hstd, ?_, ?_⟩
  · exact hstd _ _ (by rw [metadata.Provider.lookup_StandardLabelsWithComponent]; rfl)
  · exact hstd _ _ (by rw [metadata.Provider.lookup_StandardLabelsWithComponent]; rfl)
  · exact hstd _ _ (by rw [metadata.Provider.lookup_StandardLabelsWithComponent]; rfl)
  · exact hstd _ _ (by rw [metadata.Provider.lookup_StandardLabelsWithComponent]; rfl)
  · exact hstd _ _ (by rw [metadata.Provider.lookup_StandardLabelsWithComponent]; rfl)
  · intro k hk
    simp only [List.mem_cons, List.mem_singleton, not_or, List.not_mem_nil, or_false] at hk
    obtain ⟨k1, k2, k3, k4, k5⟩ := hk
    have hnone : ((env.meta s.dc).StandardLabelsWithComponent s.dc.asObject s.comp).lookup k
        = none := by
      rw [metadata.Provider.lookup_StandardLabelsWithComponent]
      simp only [k1, k2, k3, k4, k5, if_false]
    rw [statefulSetDS.lookup_labels, hnone]
  · intro image ref hImage hParse
    obtain ⟨sts, container, hsts, -, -, hl, hlt, -⟩ :=
      statefulSetDS.GetStatefulSet_ok env s image ref hImage hParse
    exact ⟨sts, hsts, hl, hlt⟩

/-- C13 at the worker of `sampleCluster`, whose user labels set `managed-by` to `me` and `team`
to `data`: the StatefulSet is synthesized and its labels keep the standard `managed-by` value
and the `team` label. -/
theorem statefulSetDS.labels_standard_win_witness :
    ∃ sts, (WorkerStatefulSet sampleEnv sampleCluster).GetStatefulSet sampleEnv = .ok sts ∧
      sts.ObjectMeta.Labels.lookup "app.kubernetes.io/managed-by" =
        some "distributed-compute-operator" ∧
      sts.ObjectMeta.Labels.lookup "team" = some "data" := by
  obtain ⟨-, -, -, hm, -, -, hother, hsyn⟩ :=
    statefulSetDS.labels_standard_win sampleEnv (WorkerStatefulSet sampleEnv sampleCluster)
  obtain ⟨sts, hsts, hl, -⟩ := hsyn
    { Repository := "daskdev/dask", Tag := "2021.7.0", PullPolicy := "Always" }
    "daskdev/dask:2021.7.0" rfl rfl
  refine ⟨sts, hsts, ?_, ?_⟩
  · rw [hl]
    exact hm
  · rw [hl]
    exact (hother "team" (by decide)).trans (by decide)

/-- The evidence against C14 as stated: for the worker of `sampleCluster`, whose spec declares
the variable `FOO`, the environment list is `FOO` followed by `MY_POD_NAME`: it is not the
role's variables followed by the spec's, and it does not start with `MY_POD_NAME`. -/
theorem statefulSetDS.env_not_role_first :
    (WorkerStatefulSet sampleEnv sampleCluster).env.map (fun e => e.Name) =
      ["FOO", "MY_POD_NAME"] ∧
    (WorkerStatefulSet sampleEnv sampleCluster).env ≠
      (WorkerStatefulSet sampleEnv sampleCluster).tc.containerEnv ++ sampleCluster.Spec.EnvVars ∧
    (WorkerStatefulSet sampleEnv sampleCluster).env.head?.map (fun e => e.Name) ≠
      some "MY_POD_NAME" := by
  decide

/-- C14, amended: for every cluster and role, the environment list of the data source is the
spec-wide `Spec.EnvVars` followed by the role's variables (`containerEnv`): the role's
variables are appended after the spec-wide ones, none for the scheduler, and for a worker the
list ends with `MY_POD_NAME`; when the image parses the StatefulSet is synthesized with one
container, which carries this list. -/
theorem statefulSetDS.env_spec_then_role (env : Env) (dc : DaskCluster) :
    (SchedulerStatefulSet env dc).env =
      dc.Spec.EnvVars ++ schedulerConfig.containerEnv { dc := dc } ∧
    (SchedulerStatefulSet env dc).env = dc.Spec.EnvVars ∧
    (WorkerStatefulSet env dc).env = dc.Spec.EnvVars ++ workerConfig.containerEnv { dc := dc } ∧
    (WorkerStatefulSet env dc).env.getLast?.map (fun e => e.Name) = some "MY_POD_NAME" ∧
    (∀ image ref, dc.Spec.Image = some image →
      env.ParseImageDefinition (some image) = .ok ref →
      (∃ sts container, (SchedulerStatefulSet env dc).GetStatefulSet env = .ok sts ∧
        sts.Spec.Template.Spec.Containers = [container] ∧
        container.Env = (SchedulerStatefulSet env dc).env) ∧
      (∃ sts container, (WorkerStatefulSet env dc).GetStatefulSet env = .ok sts ∧
        sts.Spec.Template.Spec.Containers = [container] ∧
        container.Env = (WorkerStatefulSet env dc).env)) := by
  refine ⟨rfl, ?_, rfl, ?_, ?_⟩
  · simp [statefulSetDS.env, SchedulerStatefulSet, typeConfig.containerEnv,
      schedulerConfig.containerEnv]
  · simp [statefulSetDS.env, WorkerStatefulSet, typeConfig.containerEnv,
      workerConfig.containerEnv]
  · intro image ref hImage hParse
    constructor
    · obtain ⟨sts, container, hsts, hc, -, -, -, -, -, -, -, he, -⟩ :=
        statefulSetDS.GetStatefulSet_ok env (SchedulerStatefulSet env dc) image ref hImage hParse
      exact ⟨sts, container, hsts, hc, he⟩
    · obtain ⟨sts, container, hsts, hc, -, -, -, -, -, -, -, he, -⟩ :=
        statefulSetDS.GetStatefulSet_ok env (WorkerStatefulSet env dc) image ref hImage hParse
      exact ⟨sts, container, hsts, hc, he⟩

/-- C14, amended, at `sampleCluster`: the worker StatefulSet is synthesized and its container's
variables are `FOO`, then `MY_POD_NAME`. -/
theorem statefulSetDS.env_spec_then_role_witness :
    ∃ sts container, (WorkerStatefulSet sampleEnv sampleCluster).GetStatefulSet sampleEnv
        = .ok sts ∧
      sts.Spec.Template.Spec.Containers = [container] ∧
      container.Env.map (fun e => e.Name) = ["FOO", "MY_POD_NAME"] := by
  obtain ⟨sts, container, hsts, hc, he⟩ :=
    ((statefulSetDS.env_spec_then_role sampleEnv sampleCluster).2.2.2.2
      { Repository := "daskdev/dask", Tag := "2021.7.0", PullPolicy := "Always" }
      "daskdev/dask:2021.7.0" rfl rfl).2
  exact ⟨sts, container, hsts, hc, by rw [he]; decide⟩

/-- C15: for every cluster, the last launch argument of the worker is
`<scheduler name>:<SchedulerPort>`, where the scheduler name is the name and the service name
of the scheduler data source (the instance name for the scheduler component) and the port is
the number of the scheduler's `--port` flag and of its `serve` container port; when the image
parses both StatefulSets are synthesized and carry these values. -/
theorem statefulSetDS.worker_args_reference_scheduler (env : Env) (dc : DaskCluster) :
    ((WorkerStatefulSet env dc).commandArgs env).getLast? =
      some ((SchedulerStatefulSet env dc).name env ++ ":" ++ toString dc.Spec.SchedulerPort) ∧
    (SchedulerStatefulSet env dc).serviceName env = (SchedulerStatefulSet env dc).name env ∧
    (SchedulerStatefulSet env dc).name env =
      (env.meta dc).InstanceName dc.asObject env.ComponentScheduler ∧
    ((SchedulerStatefulSet env dc).commandArgs env).head? =
      some ("--port=" ++ toString dc.Spec.SchedulerPort) ∧
    (SchedulerStatefulSet env dc).ports.head? =
      some { Name := "serve", ContainerPort := dc.Spec.SchedulerPort } ∧
    (∀ image ref, dc.Spec.Image = some image →
      env.ParseImageDefinition (some image) = .ok ref →
      ∃ scheduler schedulerContainer worker workerContainer,
        (SchedulerStatefulSet env dc).GetStatefulSet env = .ok scheduler ∧
        scheduler.Spec.Template.Spec.Containers = [schedulerContainer] ∧
        (WorkerStatefulSet env dc).GetStatefulSet env = .ok worker ∧
        worker.Spec.Template.Spec.Containers = [workerContainer] ∧
        workerContainer.Args.getLast? =
          some (scheduler.ObjectMeta.Name ++ ":" ++ toString dc.Spec.SchedulerPort) ∧
        scheduler.Spec.ServiceName = scheduler.ObjectMeta.Name ∧
        scheduler.ObjectMeta.Name =
          (env.meta dc).InstanceName dc.asObject env.ComponentScheduler ∧
        schedulerContainer.Args.head? = some ("--port=" ++ toString dc.Spec.SchedulerPort) ∧
        schedulerContainer.Ports.head? =
          some { Name := "serve", ContainerPort := dc.Spec.SchedulerPort }) := by
  have hlast : ((WorkerStatefulSet env dc).commandArgs env).getLast? =
      some ((SchedulerStatefulSet env dc).name env ++ ":"
        ++ toString dc.Spec.SchedulerPort) := by
    simp [statefulSetDS.commandArgs, WorkerStatefulSet, typeConfig.commandArgs,
      workerConfig.commandArgs, statefulSetDS.name, SchedulerStatefulSet]
  refine ⟨hlast, rfl, rfl, rfl, rfl, ?_⟩
  intro image ref hImage hParse
  obtain ⟨s, sc, hs, hsc, hname, -, -, -, hsvc, hargs, hports, -⟩ :=
    statefulSetDS.GetStatefulSet_ok env (SchedulerStatefulSet env dc) image ref hImage hParse
  obtain ⟨w, wc, hw, hwc, -, -, -, -, -, hwargs, -⟩ :=
    statefulSetDS.GetStatefulSet_ok env (WorkerStatefulSet env dc) image ref hImage hParse
  refine ⟨s, sc, w, wc, hs, hsc, hw, hwc, ?_, ?_, ?_, ?_, ?_⟩
  · rw [hwargs, hname]
    exact hlast
  · rw [hsvc, hname]
    rfl
  · rw [hname]
    rfl
  · rw [hargs]
    rfl
  · rw [hports]
    rfl

/-- C15 at `sampleCluster`: both StatefulSets are synthesized, the worker's last argument is
`test-dask-scheduler:8786`, and `test-dask-scheduler` is the name of the scheduler
StatefulSet. -/
theorem statefulSetDS.worker_args_reference_scheduler_witness :
    ∃ scheduler worker workerContainer,
      (SchedulerStatefulSet sampleEnv sampleCluster).GetStatefulSet sampleEnv = .ok scheduler ∧
      (WorkerStatefulSet sampleEnv sampleCluster).GetStatefulSet sampleEnv = .ok worker ∧
      worker.Spec.Template.Spec.Containers = [workerContainer] ∧
      workerContainer.Args.getLast? = some "test-dask-scheduler:8786" ∧
      scheduler.ObjectMeta.Name = "test-dask-scheduler" := by
  obtain ⟨s, sc, w, wc, hs, -, hw, hwc, hlast, -, hname, -⟩ :=
    (statefulSetDS.worker_args_reference_scheduler sampleEnv sampleCluster).2.2.2.2.2
      { Repository := "daskdev/dask", Tag := "2021.7.0", PullPolicy := "Always" }
      "daskdev/dask:2021.7.0" rfl rfl
  have hn : s.ObjectMeta.Name = "test-dask-scheduler" := hname.trans (by decide)
  refine ⟨s, w, wc, hs, hw, hwc, ?_, hn⟩
  rw [hlast, hn]
  decide

/-- C16: for every cluster, the replica count of the scheduler data source is 1, whatever the
spec says, and that of the worker data source is `Spec.Worker.Replicas`; when the image parses
both StatefulSets are synthesized with these replica counts. -/
theorem statefulSetDS.replica_counts (env : Env) (dc : DaskCluster) :
    (SchedulerStatefulSet env dc).replicas = some 1 ∧
    (WorkerStatefulSet env dc).replicas = some dc.Spec.Worker.Replicas ∧
    (∀ image ref, dc.Spec.Image = some image →
      env.ParseImageDefinition (some image) = .ok ref →
      (∃ sts, (SchedulerStatefulSet env dc).GetStatefulSet env = .ok sts ∧
        sts.Spec.Replicas = some 1) ∧
      (∃ sts, (WorkerStatefulSet env dc).GetStatefulSet env = .ok sts ∧
        sts.Spec.Replicas = some dc.Spec.Worker.Replicas)) := by
  refine ⟨rfl, rfl, ?_⟩
  intro image ref hImage hParse
  constructor
  · obtain ⟨sts, -, hsts, -, -, -, -, hr, -⟩ :=
      statefulSetDS.GetStatefulSet_ok env (SchedulerStatefulSet env dc) image ref hImage hParse
    exact ⟨sts, hsts, hr.trans rfl⟩
  · obtain ⟨sts, -, hsts, -, -, -, -, hr, -⟩ :=
      statefulSetDS.GetStatefulSet_ok env (WorkerStatefulSet env dc) image ref hImage hParse
    exact ⟨sts, hsts, hr.trans rfl⟩

/-- C16 at `sampleCluster`, a spec of three workers: both StatefulSets are synthesized, the
scheduler with one replica, the worker with three. -/
theorem statefulSetDS.replica_counts_witness :
    (∃ sts, (SchedulerStatefulSet sampleEnv sampleCluster).GetStatefulSet sampleEnv = .ok sts ∧
      sts.Spec.Replicas = some 1) ∧
    (∃ sts, (WorkerStatefulSet sampleEnv sampleCluster).GetStatefulSet sampleEnv = .ok sts ∧
      sts.Spec.Replicas = some 3) :=
  (statefulSetDS.replica_counts sampleEnv sampleCluster).2.2
    { Repository := "daskdev/dask", Tag := "2021.7.0", PullPolicy := "Always" }
    "daskdev/dask:2021.7.0" rfl rfl

/-- C17: for every cluster, the ports of the worker container are, in order, `worker` =
`Spec.WorkerPort`, `nanny` = `Spec.NannyPort`, `dashboard` = `Spec.DashboardPort`, and the
ports of the scheduler container are `serve` = `Spec.SchedulerPort`, `dashboard` =
`Spec.DashboardPort`; when the image parses both StatefulSets are synthesized and their
containers declare these ports. -/
theorem statefulSetDS.container_ports (env : Env) (dc : DaskCluster) :
    (WorkerStatefulSet env dc).ports =
      [{ Name := "worker", ContainerPort := dc.Spec.WorkerPort },
       { Name := "nanny", ContainerPort := dc.Spec.NannyPort },
       { Name := "dashboard", ContainerPort := dc.Spec.DashboardPort }] ∧
    (SchedulerStatefulSet env dc).ports =
      [{ Name := "serve", ContainerPort := dc.Spec.SchedulerPort },
       { Name := "dashboard", ContainerPort := dc.Spec.DashboardPort }] ∧
    (∀ image ref, dc.Spec.Image = some image →
      env.ParseImageDefinition (some image) = .ok ref →
      (∃ sts container, (WorkerStatefulSet env dc).GetStatefulSet env = .ok sts ∧
        sts.Spec.Template.Spec.Containers = [container] ∧
        container.Ports = (WorkerStatefulSet env dc).ports) ∧
      (∃ sts container, (SchedulerStatefulSet env dc).GetStatefulSet env = .ok sts ∧
        sts.Spec.Template.Spec.Containers = [container] ∧
        container.Ports = (SchedulerStatefulSet env dc).ports)) := by
  refine ⟨rfl, rfl, ?_⟩
  intro image ref hImage hParse
  constructor
  · obtain ⟨sts, container, hsts, hc, -, -, -, -, -, -, hp, -⟩ :=
      statefulSetDS.GetStatefulSet_ok env (WorkerStatefulSet env dc) image ref hImage hParse
    exact ⟨sts, container, hsts, hc, hp⟩
  · obtain ⟨sts, container, hsts, hc, -, -, -, -, -, -, hp, -⟩ :=
      statefulSetDS.GetStatefulSet_ok env (SchedulerStatefulSet env dc) image ref hImage hParse
    exact ⟨sts, container, hsts, hc, hp⟩

/-- C17 at `sampleCluster`: the worker StatefulSet is synthesized and its container declares
the ports 3000, 3001 and 8787 under the names `worker`, `nanny` and `dashboard`. -/
theorem statefulSetDS.container_ports_witness :
    ∃ sts container, (WorkerStatefulSet sampleEnv sampleCluster).GetStatefulSet sampleEnv
        = .ok sts ∧
      sts.Spec.Template.Spec.Containers = [container] ∧
      container.Ports =
        [{ Name := "worker", ContainerPort := 3000 }, { Name := "nanny", ContainerPort := 3001 },
         { Name := "dashboard", ContainerPort := 8787 }] := by
  obtain ⟨sts, container, hsts, hc, hp⟩ :=
    ((statefulSetDS.container_ports sampleEnv sampleCluster).2.2
      { Repository := "daskdev/dask", Tag := "2021.7.0", PullPolicy := "Always" }
      "daskdev/dask:2021.7.0" rfl rfl).1
  exact ⟨sts, container, hsts, hc, hp.trans (by decide)⟩

end dask

/-! ## Labels: the claims -/

namespace metadata

/-- C18: for every provider, object and component, `StandardLabels` is exactly the four
entries name = application, instance = object name, version = `version(obj)`, managed-by =
`distributed-compute-operator`, and `StandardLabelsWithComponent` is that map with the single
further entry component = the component; the five keys are distinct. -/
theorem Provider.StandardLabels_exact (p : Provider) (obj : Object) (comp : Component) :
    p.StandardLabels obj =
      [("app.kubernetes.io/name", p.application), ("app.kubernetes.io/instance", obj.Name),
       ("app.kubernetes.io/version", p.version obj),
       ("app.kubernetes.io/managed-by", "distributed-compute-operator")] ∧
    p.StandardLabelsWithComponent obj comp =
      p.StandardLabels obj ++ [("app.kubernetes.io/component", comp)] ∧
    ((p.StandardLabelsWithComponent obj comp).map Prod.fst).Nodup ∧
    (p.StandardLabelsWithComponent obj comp).lookup "app.kubernetes.io/component" = some comp ∧
    (∀ k, k ≠ "app.kubernetes.io/component" →
      (p.StandardLabelsWithComponent obj comp).lookup k = (p.StandardLabels obj).lookup k) := by
  refine ⟨rfl, ?_, ?_, ?_, ?_⟩
  · rw [Provider.StandardLabelsWithComponent_eq, Provider.StandardLabels_eq]
    rfl
  · rw [Provider.StandardLabelsWithComponent_eq]
    simp
  · rw [Provider.lookup_StandardLabelsWithComponent]
    rfl
  · intro k hk
    have e : (k == "app.kubernetes.io/component") = false := by simpa using hk
    rw [Provider.StandardLabelsWithComponent_eq, Provider.StandardLabels_eq]
    simp only [List.lookup, e]

/-- C18 for the application `dask` and the object `test`: a key other than the component key
has the same value with and without component. -/
theorem Provider.StandardLabels_exact_witness :
    ((NewProvider "dask" (fun _ => "2021.7.0")).StandardLabelsWithComponent ⟨"test", "default"⟩
        "worker").lookup "app.kubernetes.io/version" =
      ((NewProvider "dask" (fun _ => "2021.7.0")).StandardLabels ⟨"test", "default"⟩).lookup
        "app.kubernetes.io/version" :=
  (Provider.StandardLabels_exact (NewProvider "dask" (fun _ => "2021.7.0")) ⟨"test", "default"⟩
    "worker").2.2.2.2 "app.kubernetes.io/version" (by decide)

/-- C19: for every provider, object and component, the match labels are the name and instance
entries of the standard labels (with component: and the component entry), every entry of the
match labels is an entry of the standard labels, the version key is not defined in them, and
two providers with the same application name give equal match labels whatever their version
extractors. -/
theorem Provider.MatchLabels_minimal (p : Provider) (obj : Object) (comp : Component) :
    p.MatchLabels obj =
      [("app.kubernetes.io/name", p.application), ("app.kubernetes.io/instance", obj.Name)] ∧
    p.MatchLabelsWithComponent obj comp =
      [("app.kubernetes.io/name", p.application), ("app.kubernetes.io/instance", obj.Name),
       ("app.kubernetes.io/component", comp)] ∧
    (∀ kv ∈ p.MatchLabels obj, kv ∈ p.StandardLabels obj) ∧
    (∀ kv ∈ p.MatchLabelsWithComponent obj comp, kv ∈ p.StandardLabelsWithComponent obj comp) ∧
    (p.MatchLabels obj).lookup "app.kubernetes.io/version" = none ∧
    (p.MatchLabelsWithComponent obj comp).lookup "app.kubernetes.io/version" = none ∧
    "app.kubernetes.io/version" ∉ (p.MatchLabels obj).map Prod.fst ∧
    "app.kubernetes.io/version" ∉ (p.MatchLabelsWithComponent obj comp).map Prod.fst ∧
    (∀ q : Provider, q.application = p.application →
      q.MatchLabels obj = p.MatchLabels obj ∧
      q.MatchLabelsWithComponent obj comp = p.MatchLabelsWithComponent obj comp) := by
  have hm : p.MatchLabels obj =
      [("app.kubernetes.io/name", p.application), ("app.kubernetes.io/instance", obj.Name)] :=
    rfl
  refine ⟨hm, Provider.MatchLabelsWithComponent_eq p obj comp, ?_, ?_, ?_, ?_, ?_, ?_, ?_⟩
  · rw [hm, Provider.StandardLabels_eq]
    intro kv hkv
    simp only [List.mem_cons, List.mem_singleton, List.not_mem_nil, or_false] at hkv ⊢
    rcases hkv with h | h <;> simp [h]
  · rw [Provider.MatchLabelsWithComponent_eq, Provider.StandardLabelsWithComponent_eq]
    intro kv hkv
    simp only [List.mem_cons, List.mem_singleton, List.not_mem_nil, or_false] at hkv ⊢
    rcases hkv with h | h | h <;> simp [h]
  · rw [hm]
    rfl
  · rw [Provider.MatchLabelsWithComponent_eq]
    rfl
  · rw [hm]
    simp
  · rw [Provider.MatchLabelsWithComponent_eq]
    simp
  · intro q hq
    constructor
    · rw [hm]
      rw [← hq]
      rfl
    · rw [Provider.MatchLabelsWithComponent_eq, Provider.MatchLabelsWithComponent_eq, hq]

/-- C19 for the application `dask` and the object `test`: the providers with the version
extractors `1.0.0` and `2.0.0` give the same match labels. -/
theorem Provider.MatchLabels_minimal_witness :
    (NewProvider "dask" (fun _ => "2.0.0")).MatchLabels ⟨"test", "default"⟩ =
        (NewProvider "dask" (fun _ => "1.0.0")).MatchLabels ⟨"test", "default"⟩ ∧
    (NewProvider "dask" (fun _ => "2.0.0")).MatchLabelsWithComponent ⟨"test", "default"⟩
        "worker" =
      (NewProvider "dask" (fun _ => "1.0.0")).MatchLabelsWithComponent ⟨"test", "default"⟩
        "worker" :=
  (Provider.MatchLabels_minimal (NewProvider "dask" (fun _ => "1.0.0")) ⟨"test", "default"⟩
    "worker").2.2.2.2.2.2.2.2 (NewProvider "dask" (fun _ => "2.0.0")) rfl

end metadata

/-! ## Validation: the mutual-TLS mode -/

namespace v1alpha1

/-- The loop that collects the keys of the mode table collects them in iteration order. -/
theorem foldl_collect_keys (modeValue : List (String × Int)) (acc : List String) :
    modeValue.foldl (fun validModes kv => validModes ++ [kv.1]) acc =
      acc ++ modeValue.map Prod.fst := by
  induction modeValue generalizing acc with
  | nil => simp
  | cons kv l ih => simp [List.foldl_cons, ih]

/-- C20: for every RayCluster and mode table, `validateMutualTLSMode` returns no entry if and
only if the mode is empty or a key of the table; otherwise it returns the one invalid-value
entry at `spec.istioMutualTLSMode` that carries the rejected mode and whose reason lists every
key of the table, in iteration order. -/
theorem RayCluster.validateMutualTLSMode_iff (modeValue : List (String × Int))
    (r : RayCluster) :
    (r.validateMutualTLSMode modeValue = none ↔
      r.Spec.MutualTLSMode = "" ∨ r.Spec.MutualTLSMode ∈ modeValue.map Prod.fst) ∧
    (¬ (r.Spec.MutualTLSMode = "" ∨ r.Spec.MutualTLSMode ∈ modeValue.map Prod.fst) →
      r.validateMutualTLSMode modeValue =
        some { Type_ := .ErrorTypeInvalid, Field := "spec.istioMutualTLSMode",
               BadValue := .str r.Spec.MutualTLSMode,
               Detail := "mode must be one of the following: ["
                 ++ " ".intercalate (modeValue.map Prod.fst) ++ "]" }) := by
  have hl : (modeValue.lookup r.Spec.MutualTLSMode).isSome ↔
      r.Spec.MutualTLSMode ∈ modeValue.map Prod.fst := by
    rw [List.lookup_isSome_iff, List.mem_map]
    constructor
    · rintro ⟨kv, hmem, hk⟩
      exact ⟨kv, hmem, (by simpa using hk : r.Spec.MutualTLSMode = kv.1).symm⟩
    · rintro ⟨kv, hmem, hk⟩
      exact ⟨kv, hmem, by simp [hk]⟩
  have hp : ((field.NewPath "spec").Child "istioMutualTLSMode").String =
      "spec.istioMutualTLSMode" := by decide
  unfold RayCluster.validateMutualTLSMode
  simp only [field.Invalid, hp, foldl_collect_keys, List.nil_append, sprintStrings]
  split_ifs with h1 h2
  · simp [h1]
  · simp [hl.mp h2]
  · have h2' : r.Spec.MutualTLSMode ∉ modeValue.map Prod.fst := fun h => h2 (hl.mpr h)
    refine ⟨?_, ?_⟩
    · simp only [reduceCtorEq, false_iff, not_or]
      exact ⟨h1, h2'⟩
    · intro _
      have e : "mode must be one of the following: " ++ "[" =
          "mode must be one of the following: [" := by decide
      rw [String.append_assoc, String.append_assoc, ← String.append_assoc, e]

/-- C20 at `fullCluster` with the mode `BOGUS` and the sample mode table: the entry lists the
four modes of the table. -/
theorem RayCluster.validateMutualTLSMode_iff_witness :
    RayCluster.validateMutualTLSMode sampleModeValue
        { fullCluster with Spec := { fullCluster.Spec with MutualTLSMode := "BOGUS" } } =
      some { Type_ := .ErrorTypeInvalid, Field := "spec.istioMutualTLSMode",
             BadValue := .str "BOGUS",
             Detail := "mode must be one of the following: [UNSET DISABLE PERMISSIVE STRICT]" } :=
  (RayCluster.validateMutualTLSMode_iff sampleModeValue
    { fullCluster with Spec := { fullCluster.Spec with MutualTLSMode := "BOGUS" } }).2
    (by decide)

end v1alpha1

/-! ## Validation: image, object-store memory, worker replicas -/

namespace v1alpha1

/-- C21: for every RayCluster with an image set, `validateImage` returns the required-field
entry at `spec.image.repository` exactly when the repository is empty, followed by the one at
`spec.image.tag` exactly when the tag is empty: both entries, repository first, when both are
empty, and no entry when neither is. -/
theorem RayCluster.validateImage_entries (r : RayCluster) (image : OCIImageDefinition)
    (hImage : r.Spec.Image = some image) :
    r.validateImage = .ok
      ((if image.Repository = "" then
          [{ Type_ := .ErrorTypeRequired, Field := "spec.image.repository", BadValue := .str "",
             Detail := "cannot be blank" }]
        else [])
        ++ (if image.Tag = "" then
          [{ Type_ := .ErrorTypeRequired, Field := "spec.image.tag", BadValue := .str "",
             Detail := "cannot be blank" }]
        else [])) ∧
    (image.Repository = "" → image.Tag = "" →
      r.validateImage = .ok
        [{ Type_ := .ErrorTypeRequired, Field := "spec.image.repository", BadValue := .str "",
           Detail := "cannot be blank" },
         { Type_ := .ErrorTypeRequired, Field := "spec.image.tag", BadValue := .str "",
           Detail := "cannot be blank" }]) ∧
    (image.Repository ≠ "" → image.Tag ≠ "" → r.validateImage = .ok []) := by
  have p1 : (((field.NewPath "spec").Child "image").Child "repository").String =
      "spec.image.repository" := by decide
  have p2 : (((field.NewPath "spec").Child "image").Child "tag").String =
      "spec.image.tag" := by decide
  have h : r.validateImage = .ok
      ((if image.Repository = "" then
          [{ Type_ := .ErrorTypeRequired, Field := "spec.image.repository", BadValue := .str "",
             Detail := "cannot be blank" }]
        else [])
        ++ (if image.Tag = "" then
          [{ Type_ := .ErrorTypeRequired, Field := "spec.image.tag", BadValue := .str "",
             Detail := "cannot be blank" }]
        else [])) := by
    unfold RayCluster.validateImage
    rw [hImage]
    simp only [field.Required, p1, p2, List.nil_append]
    split_ifs <;> rfl
  refine ⟨h, ?_, ?_⟩
  · intro hr ht
    rw [h, if_pos hr, if_pos ht]
    rfl
  · intro hr ht
    rw [h, if_neg hr, if_neg ht]
    rfl

/-- C21 at `manyErrorsCluster`, whose image has a repository and a blank tag: the one entry at
`spec.image.tag`. -/
theorem RayCluster.validateImage_entries_witness :
    manyErrorsCluster.validateImage = .ok
      [{ Type_ := .ErrorTypeRequired, Field := "spec.image.tag", BadValue := .str "",
         Detail := "cannot be blank" }] :=
  (RayCluster.validateImage_entries manyErrorsCluster
    { Repository := "custom/ray", Tag := "", PullPolicy := "" } rfl).1

/-- C22: for every RayCluster, `validateObjectStoreMemoryBytes` returns an entry, the
invalid-value entry at `spec.objectStoreMemoryBytes`, if and only if the size is set and
strictly below 78643200; an unset size and the size 78643200 itself are accepted. -/
theorem RayCluster.validateObjectStoreMemoryBytes_iff (r : RayCluster) :
    (∀ e, r.validateObjectStoreMemoryBytes = some e ↔
      ∃ m, r.Spec.ObjectStoreMemoryBytes = some m ∧ m < 78643200 ∧
        e = { Type_ := .ErrorTypeInvalid, Field := "spec.objectStoreMemoryBytes",
              BadValue := .intPtr m,
              Detail := "should be greater than or equal to 78643200" }) ∧
    (r.validateObjectStoreMemoryBytes ≠ none ↔
      ∃ m, r.Spec.ObjectStoreMemoryBytes = some m ∧ m < 78643200) ∧
    (r.Spec.ObjectStoreMemoryBytes = none → r.validateObjectStoreMemoryBytes = none) ∧
    (r.Spec.ObjectStoreMemoryBytes = some 78643200 → r.validateObjectStoreMemoryBytes = none) := by
  have hp : ((field.NewPath "spec").Child "objectStoreMemoryBytes").String =
      "spec.objectStoreMemoryBytes" := by decide
  unfold RayCluster.validateObjectStoreMemoryBytes
  simp only [field.Invalid, hp]
  cases hm : r.Spec.ObjectStoreMemoryBytes with
  | none => simp
  | some m =>
    by_cases hge : m ≥ 78643200
    · simp only [hge, if_true, reduceCtorEq, Option.some.injEq, false_iff, not_exists, not_and,
        ne_eq, not_true_eq_false, IsEmpty.forall_iff, implies_true, and_true]
      refine ⟨?_, ?_⟩
      · intro e m' hm' hlt
        omega
      · intro m' hm' hlt
        omega
    · simp only [hge, if_false, Option.some.injEq, reduceCtorEq, ne_eq, not_false_eq_true,
        IsEmpty.forall_iff, true_iff]
      refine ⟨?_, ⟨m, rfl, by omega⟩, ?_⟩
      · intro e
        constructor
        · intro he
          exact ⟨m, rfl, by omega, he.symm⟩
        · rintro ⟨m', hm', -, he⟩
          rw [he, hm']
      · exact ⟨trivial, fun h => by omega⟩

/-- C22 at the size 78643199, one byte below the minimum: the entry is returned. -/
theorem RayCluster.validateObjectStoreMemoryBytes_iff_witness :
    RayCluster.validateObjectStoreMemoryBytes
        { fullCluster with
          Spec := { fullCluster.Spec with ObjectStoreMemoryBytes := some 78643199 } } =
      some { Type_ := .ErrorTypeInvalid, Field := "spec.objectStoreMemoryBytes",
             BadValue := .intPtr 78643199,
             Detail := "should be greater than or equal to 78643200" } ∧
    fullCluster.validateObjectStoreMemoryBytes = none :=
  ⟨((RayCluster.validateObjectStoreMemoryBytes_iff
      { fullCluster with
        Spec := { fullCluster.Spec with ObjectStoreMemoryBytes := some 78643199 } }).1 _).mpr
      ⟨78643199, rfl, by decide, rfl⟩,
    (RayCluster.validateObjectStoreMemoryBytes_iff fullCluster).2.2.2 rfl⟩

/-- C23: for every RayCluster, `validateWorkerReplicas` returns an entry, the invalid-value
entry at `spec.worker.replicas`, if and only if the worker replica count is set and negative;
an unset count and the count 0 are accepted. -/
theorem RayCluster.validateWorkerReplicas_iff (r : RayCluster) :
    (∀ e, r.validateWorkerReplicas = some e ↔
      ∃ n, r.Spec.Worker.Replicas = some n ∧ n < 0 ∧
        e = { Type_ := .ErrorTypeInvalid, Field := "spec.worker.replicas",
              BadValue := .intPtr n, Detail := "should be greater than or equal to 0" }) ∧
    (r.validateWorkerReplicas ≠ none ↔ ∃ n, r.Spec.Worker.Replicas = some n ∧ n < 0) ∧
    (r.Spec.Worker.Replicas = none → r.validateWorkerReplicas = none) ∧
    (r.Spec.Worker.Replicas = some 0 → r.validateWorkerReplicas = none) := by
  have hp : (((field.NewPath "spec").Child "worker").Child "replicas").String =
      "spec.worker.replicas" := by decide
  unfold RayCluster.validateWorkerReplicas
  simp only [field.Invalid, hp]
  cases hm : r.Spec.Worker.Replicas with
  | none => simp
  | some n =>
    by_cases hge : n ≥ 0
    · simp only [hge, if_true, reduceCtorEq, Option.some.injEq, false_iff, not_exists, not_and,
        ne_eq, not_true_eq_false, IsEmpty.forall_iff, implies_true, and_true]
      refine ⟨?_, ?_⟩
      · intro e n' hn' hlt
        omega
      · intro n' hn' hlt
        omega
    · simp only [hge, if_false, Option.some.injEq, reduceCtorEq, ne_eq, not_false_eq_true,
        IsEmpty.forall_iff, true_iff]
      refine ⟨?_, ⟨n, rfl, by omega⟩, ?_⟩
      · intro e
        constructor
        · intro he
          exact ⟨n, rfl, by omega, he.symm⟩
        · rintro ⟨n', hn', -, he⟩
          rw [he, hn']
      · exact ⟨trivial, fun h => by omega⟩

/-- C23 at `manyErrorsCluster` (replica count -1) and `fullCluster` (replica count 0): the entry
for the first, none for the second. -/
theorem RayCluster.validateWorkerReplicas_iff_witness :
    manyErrorsCluster.validateWorkerReplicas =
      some { Type_ := .ErrorTypeInvalid, Field := "spec.worker.replicas",
             BadValue := .intPtr (-1), Detail := "should be greater than or equal to 0" } ∧
    fullCluster.validateWorkerReplicas = none :=
  ⟨((RayCluster.validateWorkerReplicas_iff manyErrorsCluster).1 _).mpr
      ⟨-1, rfl, by decide, rfl⟩,
    (RayCluster.validateWorkerReplicas_iff fullCluster).2.2.2 rfl⟩

end v1alpha1

/-! ## Defaulting, then validation -/

namespace v1alpha1

/-- C25: for every RayCluster, if validation of the defaulted cluster returns the nil error,
then the worker replica count of the defaulted cluster is set and not negative; the count is
set after `Default` in any case. -/
theorem RayCluster.accepted_Default_replicas_nonneg (modeValue : List (String × Int))
    (r : RayCluster) :
    r.Default.Spec.Worker.Replicas ≠ none ∧
    (r.Default.validateRayCluster modeValue = .ok none →
      ∃ n, r.Default.Spec.Worker.Replicas = some n ∧ 0 ≤ n) := by
  have hset : r.Default.Spec.Worker.Replicas ≠ none := by
    rw [RayCluster.Default_eq r]
    simp only [rayDefaultWorkerReplicas]
    split_ifs with h
    · simp
    · exact h
  refine ⟨hset, ?_⟩
  intro hok
  obtain ⟨imageErrs, -, hrep⟩ :=
    RayCluster.reportOf_validateRayCluster modeValue r.Default none hok
  have hnil : entriesOf r.Default.validateWorkerReplicas = [] := by
    have h := hrep.symm
    simp only [reportOf, List.append_eq_nil] at h
    exact h.1.1.1.1.1.2
  cases hn : r.Default.Spec.Worker.Replicas with
  | none => exact absurd hn hset
  | some n =>
    refine ⟨n, rfl, ?_⟩
    by_contra hneg
    unfold RayCluster.validateWorkerReplicas at hnil
    rw [hn] at hnil
    simp only [ge_iff_le, hneg, if_false, entriesOf] at hnil
    exact absurd hnil (by simp)

/-- C25 at `emptyCluster`: the defaulted cluster is accepted and its replica count is 1. -/
theorem RayCluster.accepted_Default_replicas_nonneg_witness :
    ∃ n, emptyCluster.Default.Spec.Worker.Replicas = some n ∧ 0 ≤ n :=
  (RayCluster.accepted_Default_replicas_nonneg sampleModeValue emptyCluster).2 rfl

/-- C26: for every RayCluster, the defaulted cluster has an image, so `validateImage` returns
on it and `validateRayCluster` returns an outcome (the nil error or the invalid-object error)
instead of dereferencing a nil image. -/
theorem RayCluster.validate_Default_total (modeValue : List (String × Int)) (r : RayCluster) :
    r.Default.Spec.Image ≠ none ∧
    (∃ imageErrs, r.Default.validateImage = .ok imageErrs) ∧
    (∃ res, r.Default.validateRayCluster modeValue = .ok res) := by
  have hset : r.Default.Spec.Image ≠ none := by
    rw [RayCluster.Default_eq r]
    simp only [rayDefaultImage]
    split_ifs with h
    · simp
    · exact h
  have himg : ∃ imageErrs, r.Default.validateImage = .ok imageErrs := by
    cases hi : r.Default.Spec.Image with
    | none => exact absurd hi hset
    | some image => simp [RayCluster.validateImage, hi]
  refine ⟨hset, himg, ?_⟩
  obtain ⟨imageErrs, hI⟩ := himg
  rw [RayCluster.validateRayCluster_eq, hI]
  simp only
  split_ifs
  · exact ⟨none, rfl⟩
  · exact ⟨some _, rfl⟩

end v1alpha1

/-! ## The dask data source: probes -/

namespace dask

open v1alpha1 (OCIImageDefinition)

/-- C24: for every cluster and both roles, the probe of the data source is an HTTP GET of the
path `/health` on the port named `dashboard`, and the role's container ports declare a port
named `dashboard` with the number `Spec.DashboardPort`, which is the port found under that
name; when the image parses the StatefulSet is synthesized and its container has this probe as
liveness and as readiness probe, and these ports. -/
theorem statefulSetDS.probes_on_dashboard (env : Env) (dc : DaskCluster) :
    (∀ s ∈ [SchedulerStatefulSet env dc, WorkerStatefulSet env dc],
      s.probe = some { Handler := { HTTPGet := some { Path := "/health", Port := .str "dashboard" } } } ∧
      { Name := "dashboard", ContainerPort := dc.Spec.DashboardPort } ∈ s.ports ∧
      (s.ports.find? (fun p => p.Name = "dashboard")).map (fun p => p.ContainerPort) =
        some dc.Spec.DashboardPort) ∧
    (∀ image ref, dc.Spec.Image = some image →
      env.ParseImageDefinition (some image) = .ok ref →
      ∀ s ∈ [SchedulerStatefulSet env dc, WorkerStatefulSet env dc],
        ∃ sts container, s.GetStatefulSet env = .ok sts ∧
          sts.Spec.Template.Spec.Containers = [container] ∧
          container.LivenessProbe = container.ReadinessProbe ∧
          container.LivenessProbe =
            some { Handler := { HTTPGet := some { Path := "/health", Port := .str "dashboard" } } } ∧
          { Name := "dashboard", ContainerPort := dc.Spec.DashboardPort } ∈ container.Ports ∧
          (container.Ports.find? (fun p => p.Name = "dashboard")).map (fun p => p.ContainerPort) =
            some dc.Spec.DashboardPort) := by
  have hm : ∀ s ∈ [SchedulerStatefulSet env dc, WorkerStatefulSet env dc],
      s.dc = dc ∧
      s.probe = some { Handler := { HTTPGet := some { Path := "/health", Port := .str "dashboard" } } } ∧
      { Name := "dashboard", ContainerPort := dc.Spec.DashboardPort } ∈ s.ports ∧
      (s.ports.find? (fun p => p.Name = "dashboard")).map (fun p => p.ContainerPort) =
        some dc.Spec.DashboardPort := by
    intro s hs
    simp only [List.mem_cons, List.mem_singleton, List.not_mem_nil, or_false] at hs
    rcases hs with rfl | rfl
    · refine ⟨rfl, rfl, ?_, ?_⟩
      · simp [statefulSetDS.ports, SchedulerStatefulSet, typeConfig.containerPorts,
          schedulerConfig.containerPorts]
      · simp [statefulSetDS.ports, SchedulerStatefulSet, typeConfig.containerPorts,
          schedulerConfig.containerPorts, List.find?]
    · refine ⟨rfl, rfl, ?_, ?_⟩
      · simp [statefulSetDS.ports, WorkerStatefulSet, typeConfig.containerPorts,
          workerConfig.containerPorts]
      · simp [statefulSetDS.ports, WorkerStatefulSet, typeConfig.containerPorts,
          workerConfig.containerPorts, List.find?]
  refine ⟨fun s hs => (hm s hs).2, ?_⟩
  intro image ref hImage hParse s hs
  obtain ⟨hdc, hprobe, hmem, hfind⟩ := hm s hs
  obtain ⟨sts, container, hsts, hc, -, -, -, -, -, -, hp, -, hl, hr⟩ :=
    statefulSetDS.GetStatefulSet_ok env s image ref (by rw [hdc]; exact hImage) hParse
  refine ⟨sts, container, hsts, hc, by rw [hl, hr], by rw [hl, hprobe], ?_, ?_⟩
  · rw [hp]
    exact hmem
  · rw [hp]
    exact hfind

/-- C24 at the worker of `sampleCluster`: the StatefulSet is synthesized, the container's two
probes are equal, and its port named `dashboard` is 8787. -/
theorem statefulSetDS.probes_on_dashboard_witness :
    ∃ sts container, (WorkerStatefulSet sampleEnv sampleCluster).GetStatefulSet sampleEnv
        = .ok sts ∧
      sts.Spec.Template.Spec.Containers = [container] ∧
      container.LivenessProbe = container.ReadinessProbe ∧
      (container.Ports.find? (fun p => p.Name = "dashboard")).map (fun p => p.ContainerPort) =
        some 8787 := by
  obtain ⟨sts, container, hsts, hc, heq, -, -, hfind⟩ :=
    (statefulSetDS.probes_on_dashboard sampleEnv sampleCluster).2
      { Repository := "daskdev/dask", Tag := "2021.7.0", PullPolicy := "Always" }
      "daskdev/dask:2021.7.0" rfl rfl (WorkerStatefulSet sampleEnv sampleCluster) (by simp)
  exact ⟨sts, container, hsts, hc, heq, hfind⟩

end dask

/-! ## Naming: the spark helper -/

namespace spark

/-- C27: for the spark helper and its three declared components `none`, `master` and `worker`,
equal object names force equal instances and equal components; in particular the head service
name and the headless service name of an instance differ. -/
theorem InstanceObjectName_injective (i1 i2 : String) (c1 c2 : Component) :
    (c1 ∈ [ComponentNone, ComponentMaster, ComponentWorker] →
      c2 ∈ [ComponentNone, ComponentMaster, ComponentWorker] →
      InstanceObjectName i1 c1 = InstanceObjectName i2 c2 → i1 = i2 ∧ c1 = c2) ∧
    HeadServiceName i1 ≠ HeadlessServiceName i1 := by
  have hApp : metadata.dashFree ApplicationName := by decide
  have hM : metadata.dashFree ComponentMaster := by decide
  have hW : metadata.dashFree ComponentWorker := by decide
  have hMW : ComponentMaster ≠ ComponentWorker := by decide
  have hMA : ComponentMaster ≠ ApplicationName := by decide
  have hWA : ComponentWorker ≠ ApplicationName := by decide
  have hMN : ComponentMaster ≠ ComponentNone := by decide
  have hWN : ComponentWorker ≠ ComponentNone := by decide
  have key : ∀ (a b : String) (x y : Component),
      x ∈ [ComponentNone, ComponentMaster, ComponentWorker] →
      y ∈ [ComponentNone, ComponentMaster, ComponentWorker] →
      InstanceObjectName a x = InstanceObjectName b y → a = b ∧ x = y := by
    intro a b x y hx hy h
    simp only [List.mem_cons, List.mem_singleton, List.not_mem_nil, or_false] at hx hy
    rcases hx with rfl | rfl | rfl <;> rcases hy with rfl | rfl | rfl
    · simp only [InstanceObjectName, if_true] at h
      exact ⟨(metadata.split_last_dash_string _ _ _ _ hApp hApp h).1, rfl⟩
    · simp only [InstanceObjectName, if_true, if_neg hMN] at h
      exact absurd (metadata.split_last_dash_string _ _ _ _ hApp hM h).2.symm hMA
    · simp only [InstanceObjectName, if_true, if_neg hWN] at h
      exact absurd (metadata.split_last_dash_string _ _ _ _ hApp hW h).2.symm hWA
    · simp only [InstanceObjectName, if_true, if_neg hMN] at h
      exact absurd (metadata.split_last_dash_string _ _ _ _ hM hApp h).2 hMA
    · simp only [InstanceObjectName, if_neg hMN] at h
      exact ⟨(metadata.split_last_dash_string _ _ _ _ hApp hApp
        (metadata.split_last_dash_string _ _ _ _ hM hM h).1).1, rfl⟩
    · simp only [InstanceObjectName, if_neg hMN, if_neg hWN] at h
      exact absurd (metadata.split_last_dash_string _ _ _ _ hM hW h).2 hMW
    · simp only [InstanceObjectName, if_true, if_neg hWN] at h
      exact absurd (metadata.split_last_dash_string _ _ _ _ hW hApp h).2 hWA
    · simp only [InstanceObjectName, if_neg hMN, if_neg hWN] at h
      exact absurd (metadata.split_last_dash_string _ _ _ _ hW hM h).2.symm hMW
    · simp only [InstanceObjectName, if_neg hWN] at h
      exact ⟨(metadata.split_last_dash_string _ _ _ _ hApp hApp
        (metadata.split_last_dash_string _ _ _ _ hW hW h).1).1, rfl⟩
  refine ⟨key i1 i2 c1 c2, ?_⟩
  intro h
  exact hMW (key i1 i1 ComponentMaster ComponentWorker (by simp) (by simp) h).2

/-- C27 at the instances `a-spark` and `a`: the name of the first for the sentinel component is
not the name of the second for the master component, and the two service names of `a`
differ. -/
theorem InstanceObjectName_injective_witness :
    InstanceObjectName "a-spark" "none" ≠ InstanceObjectName "a" "master" ∧
    HeadServiceName "a" ≠ HeadlessServiceName "a" :=
  ⟨fun h => absurd
      ((InstanceObjectName_injective "a-spark" "a" "none" "master").1 (by decide) (by decide)
        h).1 (by decide),
    (InstanceObjectName_injective "a" "a" "none" "none").2⟩

end spark
